import Mathlib

/-!
SHT40 driver (`src/driver/sht40.c`, `src/driver/sht40.h`)

A shallow embedding of the Zephyr sensor driver for the Sensirion SHT40 and proofs about its
fetch / get / attribute operations.

Conventions of the embedding.

* `uint8_t` values are natural numbers.  The arrays `uint8_t[3]` and `uint8_t[6]` are the records
  `bytes3` and `bytes6`; memory that the code reaches through `void *` or `uint8_t *` casts (the
  object behind an out-pointer, the bytes of a parameter variable) is a `List Nat` of bytes.
* `int` values (return codes, `int32_t` fields) are integers.
* `double` values are rationals.  Every `double` that the driver computes is a dyadic rational
  whose numerator is far below `2 ^ 53`, so binary64 arithmetic on them is exact.
* A driver function that takes `struct sht40_data *` returns the content of the structure after
  the call next to its return code.
* The two bus transfers of one fetch are answered by an `i2c_bus` record.
-/

namespace SHT40

/-! ## Constants -/

/-- The constant `SHT40_TEMP_HUM_H_PREC_CMD` of `sht40.h`. -/
def SHT40_TEMP_HUM_H_PREC_CMD : Nat := 0xFD

/-- The errno value `EPROTO` of the C library used by Zephyr. -/
def EPROTO : Int := 71

/-- The errno value `EINVAL` of the C library used by Zephyr. -/
def EINVAL : Int := 22

/-! ## Types -/

/-- The channel selectors of `enum sensor_channel` that the driver distinguishes; every other
enumerator is `SENSOR_CHAN_OTHER` with its numeric value. -/
inductive sensor_channel where
  | SENSOR_CHAN_AMBIENT_TEMP
  | SENSOR_CHAN_HUMIDITY
  | SENSOR_CHAN_ALL
  | SENSOR_CHAN_OTHER (id : Nat)
  deriving DecidableEq, Repr

/-- The attribute selectors: `SHT40_ATTR_USE_RAW` of `enum sht40_attribute`, every other value of
`enum sensor_attribute` is `SENSOR_ATTR_OTHER` with its numeric value. -/
inductive sensor_attribute where
  | SHT40_ATTR_USE_RAW
  | SENSOR_ATTR_OTHER (id : Nat)
  deriving DecidableEq, Repr

/-- The record `struct sensor_value` of the sensor API: integer part and millionths. -/
structure sensor_value where
  val1 : Int
  val2 : Int
  deriving DecidableEq, Repr

/-- An array `uint8_t[3]`: two data bytes and a check byte. -/
structure bytes3 where
  b0 : Nat
  b1 : Nat
  b2 : Nat
  deriving DecidableEq, Repr

/-- An array `uint8_t[6]`. -/
structure bytes6 where
  b0 : Nat
  b1 : Nat
  b2 : Nat
  b3 : Nat
  b4 : Nat
  b5 : Nat
  deriving DecidableEq, Repr

/-- The bytes of a `uint8_t[3]` in memory order. -/
def bytes3.toList (a : bytes3) : List Nat := [a.b0, a.b1, a.b2]

/-- The record `struct sht40_data`; `i2c_dev` is the bus handle, `0` for `NULL`. -/
structure sht40_data where
  i2c_dev : Nat
  temperature : sensor_value
  humidity : sensor_value
  raw_temp : bytes3
  raw_humidity : bytes3
  use_raw_temp : Bool
  use_raw_humidity : Bool
  deriving DecidableEq, Repr

/-- One call made to the bus or the kernel during a fetch. -/
inductive bus_event where
  | i2c_write (dev : Nat) (bytes : List Nat) (addr : Nat)
  | k_sleep_msec (ms : Nat)
  | i2c_read (dev : Nat) (num_bytes : Nat) (addr : Nat)
  deriving DecidableEq, Repr

/-- What the bus answers during one fetch: the device-tree address `DT_INST_REG_ADDR(0)`, the
return code of `i2c_write`, the return code of `i2c_read` and the bytes it stored in `buf`. -/
structure i2c_bus where
  reg_addr : Nat
  write_ret : Int
  read_ret : Int
  read_buf : bytes6
  deriving DecidableEq, Repr

/-- The outcome of a call that only touches the device data: return code and data afterwards. -/
structure call_result where
  ret : Int
  dat : sht40_data
  deriving DecidableEq, Repr

/-- The outcome of a fetch: return code, data afterwards, calls made to bus and kernel. -/
structure fetch_result where
  ret : Int
  dat : sht40_data
  trace : List bus_event
  deriving DecidableEq, Repr

/-- The outcome of `sht40_channel_get`: return code, data afterwards, and the bytes of the
caller's object `*val` afterwards. -/
structure get_result where
  ret : Int
  dat : sht40_data
  val : List Nat
  deriving DecidableEq, Repr

/-- The outcome of `sht40_attr_get`: return code, data afterwards, the bytes of the function's own
parameter variable `val` when it returns, and the bytes of the caller's object `*val`. -/
structure attr_get_result where
  ret : Int
  dat : sht40_data
  val_param : List Nat
  val : List Nat
  deriving DecidableEq, Repr

/-! ## C library and object representation -/

/-- The call `memcpy(dst, src, n)` on byte images. -/
def memcpy (dst src : List Nat) (n : Nat) : List Nat :=
  src.take n ++ dst.drop n

/-- The call `memset(dst, c, n)` on a byte image. -/
def memset (dst : List Nat) (c n : Nat) : List Nat :=
  List.replicate n c ++ dst.drop n

/-- The four bytes of an `int32_t` in memory: two's complement, least significant byte first (the
driver's targets are little-endian). -/
def int32_bytes (x : Int) : List Nat :=
  let u := (x % 2 ^ 32).toNat
  [u % 256, u / 2 ^ 8 % 256, u / 2 ^ 16 % 256, u / 2 ^ 24 % 256]

/-- The eight bytes of a `struct sensor_value` in memory: `val1`, then `val2`. -/
def sensor_value_bytes (v : sensor_value) : List Nat :=
  int32_bytes v.val1 ++ int32_bytes v.val2

/-- The size `sizeof(struct sensor_value)`. -/
def sizeof_sensor_value : Nat := 8

/-! ## Checksum -/

/-- One bit step of the CRC-8 register: shift left, fold in the polynomial `0x31` when the top
bit was set, keep eight bits. -/
def crc8_bit (crc : Nat) : Nat :=
  if crc &&& 0x80 ≠ 0 then ((crc <<< 1) ^^^ 0x31) % 256 else (crc <<< 1) % 256

/-- One byte step of the CRC-8 register: xor the byte in, then eight bit steps. -/
def crc8_byte (crc byte : Nat) : Nat :=
  crc8_bit^[8] (crc ^^^ byte)

/-- Modelled from the spec: `sensirion_calc_crc` of `sensirion_common.h` is not part of the
sources.  The spec gives an 8-bit CRC with polynomial 0x31, initial value 0xFF, no final XOR,
MSB-first bit processing, computed over the 2 data bytes of a triple. -/
def sensirion_calc_crc (data : bytes3) : Nat :=
  crc8_byte (crc8_byte 0xFF data.b0) data.b1

/-! ## Conversion to `struct sensor_value` -/

/-- The cast `(int32_t) x` of a `double`: truncation toward zero. -/
def int32_of_double (x : ℚ) : Int :=
  if 0 ≤ x then ⌊x⌋ else ⌈x⌉

/-- Modelled from the spec: `sensor_value_from_double` of the sensor API is not part of the
sources.  The spec stores a physical value as integer part plus fractional part; the API helper
sets `val1 = (int32_t) inp` and `val2 = (int32_t) ((inp - val1) * 1000000.0)`. -/
def sensor_value_from_double (inp : ℚ) : sensor_value :=
  let val1 := int32_of_double inp
  let val2 := int32_of_double ((inp - val1) * 1000000)
  { val1 := val1, val2 := val2 }

/-! ## The driver -/

/-- The function `sht40_sample_both`. -/
def sht40_sample_both (dat : sht40_data) (bus : i2c_bus) : fetch_result :=
  let cmd := [SHT40_TEMP_HUM_H_PREC_CMD]
  let ev_write := bus_event.i2c_write dat.i2c_dev cmd bus.reg_addr
  let err := bus.write_ret
  if err ≠ 0 then { ret := err, dat := dat, trace := [ev_write] } else
  let ev_sleep := bus_event.k_sleep_msec 10
  let ev_read := bus_event.i2c_read dat.i2c_dev 6 bus.reg_addr
  let trace := [ev_write, ev_sleep, ev_read]
  let err := bus.read_ret
  if err ≠ 0 then { ret := err, dat := dat, trace := trace } else
  let buf := bus.read_buf
  let dat := { dat with raw_temp := { b0 := buf.b0, b1 := buf.b1, b2 := buf.b2 } }
  let crc := sensirion_calc_crc dat.raw_temp
  if crc ≠ dat.raw_temp.b2 then { ret := -EPROTO, dat := dat, trace := trace } else
  let dat := { dat with raw_humidity := { b0 := buf.b3, b1 := buf.b4, b2 := buf.b5 } }
  let crc := sensirion_calc_crc dat.raw_humidity
  if crc ≠ dat.raw_humidity.b2 then { ret := -EPROTO, dat := dat, trace := trace } else
  let temperature : Nat := ((dat.raw_temp.b0 <<< 8) + dat.raw_temp.b1) % 2 ^ 16
  let temperature_float : ℚ := ((temperature * 175 : Int) : ℚ) / 2 ^ 16 - 45
  let dat := { dat with temperature := sensor_value_from_double temperature_float }
  let humidity : Nat := ((dat.raw_humidity.b0 <<< 8) + dat.raw_humidity.b1) % 2 ^ 16
  let humidity_float : ℚ := ((humidity * 100 : Int) : ℚ) / 2 ^ 16
  let dat := { dat with humidity := sensor_value_from_double humidity_float }
  { ret := 0, dat := dat, trace := trace }

/-- The function `sht40_sample_fetch`; the value returned by `sht40_sample_both` is dropped. -/
def sht40_sample_fetch (dat : sht40_data) (chan : sensor_channel) (bus : i2c_bus) :
    fetch_result :=
  match chan with
  | .SENSOR_CHAN_ALL | .SENSOR_CHAN_AMBIENT_TEMP | .SENSOR_CHAN_HUMIDITY =>
    let r := sht40_sample_both dat bus
    { ret := 0, dat := r.dat, trace := r.trace }
  | .SENSOR_CHAN_OTHER _ => { ret := -EINVAL, dat := dat, trace := [] }

/-- The function `sht40_channel_get`; `val` is the object the caller's pointer refers to. -/
def sht40_channel_get (dat : sht40_data) (chan : sensor_channel) (val : List Nat) :
    get_result :=
  let val := memset val 0 sizeof_sensor_value
  match chan with
  | .SENSOR_CHAN_AMBIENT_TEMP =>
    if dat.use_raw_temp then
      { ret := 0, dat := dat, val := memcpy val dat.raw_temp.toList 3 }
    else
      { ret := 0, dat := dat,
        val := memcpy val (sensor_value_bytes dat.temperature) sizeof_sensor_value }
  | .SENSOR_CHAN_HUMIDITY =>
    if dat.use_raw_humidity then
      { ret := 0, dat := dat, val := memcpy val dat.raw_humidity.toList 3 }
    else
      { ret := 0, dat := dat,
        val := memcpy val (sensor_value_bytes dat.humidity) sizeof_sensor_value }
  | _ => { ret := -EINVAL, dat := dat, val := val }

/-- The function `sht40_init`; `binding` is what `device_get_binding` returns, `0` for `NULL`. -/
def sht40_init (data : sht40_data) (binding : Nat) : call_result :=
  let data := { data with i2c_dev := binding }
  if data.i2c_dev = 0 then { ret := -EINVAL, dat := data } else
  let data := { data with use_raw_humidity := false }
  let data := { data with use_raw_temp := false }
  { ret := 0, dat := data }

/-- The function `sht40_attr_get`.  `val_bytes` is `(uint8_t *)&val`: it points at the parameter
variable `val` itself, whose bytes are `val_param`; the object `*val` of the caller is `val`. -/
def sht40_attr_get (data : sht40_data) (chan : sensor_channel) (_attr : sensor_attribute)
    (val_param : List Nat) (val : List Nat) : attr_get_result :=
  let val_bytes := val_param
  match chan with
  | .SENSOR_CHAN_AMBIENT_TEMP =>
    let val_bytes := val_bytes.set 0 (if data.use_raw_temp then 1 else 0)
    { ret := 0, dat := data, val_param := val_bytes, val := val }
  | .SENSOR_CHAN_HUMIDITY =>
    let val_bytes := val_bytes.set 0 (if data.use_raw_humidity then 1 else 0)
    { ret := 0, dat := data, val_param := val_bytes, val := val }
  | _ => { ret := 0, dat := data, val_param := val_bytes, val := val }

/-- The function `sht40_attr_set`. -/
def sht40_attr_set (data : sht40_data) (chan : sensor_channel) (attr : sensor_attribute)
    (val : sensor_value) : call_result :=
  match attr with
  | .SHT40_ATTR_USE_RAW =>
    match chan with
    | .SENSOR_CHAN_AMBIENT_TEMP =>
      if val.val1 > 0 then { ret := 0, dat := { data with use_raw_temp := true } }
      else if val.val1 = 0 then { ret := 0, dat := { data with use_raw_temp := false } }
      else { ret := 0, dat := data }
    | .SENSOR_CHAN_HUMIDITY =>
      if val.val1 > 0 then { ret := 0, dat := { data with use_raw_humidity := true } }
      else if val.val1 = 0 then { ret := 0, dat := { data with use_raw_humidity := false } }
      else { ret := 0, dat := data }
    | _ => { ret := 0, dat := data }
  | _ => { ret := 0, dat := data }

/-! ## Device instance and call sequences -/

/-- The object `sht40_data_0` that `SHT40_DEFINE(0)` declares: static storage, all zero. -/
def sht40_data_0 : sht40_data :=
  { i2c_dev := 0
    temperature := { val1 := 0, val2 := 0 }
    humidity := { val1 := 0, val2 := 0 }
    raw_temp := { b0 := 0, b1 := 0, b2 := 0 }
    raw_humidity := { b0 := 0, b1 := 0, b2 := 0 }
    use_raw_temp := false
    use_raw_humidity := false }

/-- One call through the driver API `sht40_api`, with what the environment supplies to it. -/
inductive sht40_call where
  | sample_fetch (chan : sensor_channel) (bus : i2c_bus)
  | channel_get (chan : sensor_channel) (val : List Nat)
  | attr_set (chan : sensor_channel) (attr : sensor_attribute) (val : sensor_value)
  | attr_get (chan : sensor_channel) (attr : sensor_attribute) (val_param val : List Nat)
  deriving DecidableEq, Repr

/-- The device data after one API call. -/
def sht40_step (dat : sht40_data) : sht40_call → sht40_data
  | .sample_fetch chan bus => (sht40_sample_fetch dat chan bus).dat
  | .channel_get chan val => (sht40_channel_get dat chan val).dat
  | .attr_set chan attr val => (sht40_attr_set dat chan attr val).dat
  | .attr_get chan attr val_param val => (sht40_attr_get dat chan attr val_param val).dat

/-- The device data after a sequence of API calls. -/
def sht40_run (dat : sht40_data) (calls : List sht40_call) : sht40_data :=
  calls.foldl sht40_step dat

/-- The check that fetch applies to a triple: the computed checksum equals the third byte. -/
def triple_valid (t : bytes3) : Prop :=
  sensirion_calc_crc t = t.b2

instance (t : bytes3) : Decidable (triple_valid t) := by
  unfold triple_valid; infer_instance

/-- The temperature triple of a response: bytes 0..2. -/
def bytes6.temp (buf : bytes6) : bytes3 := { b0 := buf.b0, b1 := buf.b1, b2 := buf.b2 }

/-- The humidity triple of a response: bytes 3..5. -/
def bytes6.hum (buf : bytes6) : bytes3 := { b0 := buf.b3, b1 := buf.b4, b2 := buf.b5 }

/-- The channel selectors that `sht40_sample_fetch` accepts. -/
def sensor_channel.supported : sensor_channel → Bool
  | .SENSOR_CHAN_ALL | .SENSOR_CHAN_AMBIENT_TEMP | .SENSOR_CHAN_HUMIDITY => true
  | .SENSOR_CHAN_OTHER _ => false

/-- A fetch call that is answered by a completed transfer carrying a triple whose check byte does
not match. -/
def sht40_call.crc_mismatch : sht40_call → Bool
  | .sample_fetch chan bus =>
    chan.supported && decide (bus.write_ret = 0) && decide (bus.read_ret = 0)
      && !(decide (triple_valid bus.read_buf.temp) && decide (triple_valid bus.read_buf.hum))
  | _ => false

/-- Both stored triples carry a matching check byte. -/
def stored_triples_valid (dat : sht40_data) : Prop :=
  triple_valid dat.raw_temp ∧ triple_valid dat.raw_humidity

instance (dat : sht40_data) : Decidable (stored_triples_valid dat) := by
  unfold stored_triples_valid; infer_instance

/-- The value that a `struct sensor_value` stands for: `val1 + val2 / 1000000`. -/
def sensor_value.toRat (v : sensor_value) : ℚ :=
  v.val1 + v.val2 / 1000000

/-- A rational that a binary64 `double` holds exactly: `m / 2 ^ e` with `|m| < 2 ^ 53` and a
small exponent. -/
def binary64_exact (x : ℚ) : Prop :=
  ∃ (m : Int) (e : Nat), |m| < 2 ^ 53 ∧ e ≤ 1022 ∧ x = m / 2 ^ e

/-! ## Concrete inputs used below -/

/-- The device data right after a successful `sht40_init` of the instance `sht40_data_0`. -/
def dat_init : sht40_data := (sht40_init sht40_data_0 1).dat

/-- A bus that completes both transfers and delivers two triples with matching checksums. -/
def bus_good : i2c_bus :=
  { reg_addr := 0x44, write_ret := 0, read_ret := 0,
    read_buf := { b0 := 0x65, b1 := 0x54, b2 := 0x19, b3 := 0x81, b4 := 0x17, b5 := 0x82 } }

/-- A bus that completes both transfers; the temperature triple is intact, the check byte of the
humidity triple is wrong. -/
def bus_bad_hum_crc : i2c_bus :=
  { reg_addr := 0x44, write_ret := 0, read_ret := 0,
    read_buf := { b0 := 0x65, b1 := 0x54, b2 := 0x19, b3 := 0x81, b4 := 0x17, b5 := 0x00 } }

/-- A bus that completes both transfers; the check byte of the temperature triple is wrong. -/
def bus_bad_temp_crc : i2c_bus :=
  { reg_addr := 0x44, write_ret := 0, read_ret := 0,
    read_buf := { b0 := 0x65, b1 := 0x54, b2 := 0x00, b3 := 0x81, b4 := 0x17, b5 := 0x82 } }

/-- A bus whose write transfer fails with `-EIO` (`-5`). -/
def bus_write_fails : i2c_bus :=
  { reg_addr := 0x44, write_ret := -5, read_ret := 0,
    read_buf := { b0 := 0, b1 := 0, b2 := 0, b3 := 0, b4 := 0, b5 := 0 } }

/-- A bus whose write transfer succeeds and whose read transfer fails with `-EIO` (`-5`). -/
def bus_read_fails : i2c_bus :=
  { reg_addr := 0x44, write_ret := 0, read_ret := -5,
    read_buf := { b0 := 0, b1 := 0, b2 := 0, b3 := 0, b4 := 0, b5 := 0 } }

/-- A bus that delivers the smallest counts: both triples are `[0x00, 0x00, 0x81]`. -/
def bus_min : i2c_bus :=
  { reg_addr := 0x44, write_ret := 0, read_ret := 0,
    read_buf := { b0 := 0x00, b1 := 0x00, b2 := 0x81, b3 := 0x00, b4 := 0x00, b5 := 0x81 } }

/-- A bus that delivers the largest counts: both triples are `[0xFF, 0xFF, 0xAC]`. -/
def bus_max : i2c_bus :=
  { reg_addr := 0x44, write_ret := 0, read_ret := 0,
    read_buf := { b0 := 0xFF, b1 := 0xFF, b2 := 0xAC, b3 := 0xFF, b4 := 0xFF, b5 := 0xAC } }

/-- The initial data after the temperature channel has been switched to raw mode. -/
def dat_raw_temp : sht40_data :=
  (sht40_attr_set dat_init .SENSOR_CHAN_AMBIENT_TEMP .SHT40_ATTR_USE_RAW
    { val1 := 1, val2 := 0 }).dat

/-- A call sequence without checksum mismatch: mode changes, reads, a failed and a good fetch. -/
def calls_sample : List sht40_call :=
  [ .attr_set .SENSOR_CHAN_AMBIENT_TEMP .SHT40_ATTR_USE_RAW { val1 := 1, val2 := 0 },
    .sample_fetch .SENSOR_CHAN_HUMIDITY bus_read_fails,
    .channel_get .SENSOR_CHAN_AMBIENT_TEMP [0, 0, 0, 0, 0, 0, 0, 0],
    .sample_fetch (.SENSOR_CHAN_OTHER 3) bus_bad_temp_crc,
    .attr_get .SENSOR_CHAN_AMBIENT_TEMP .SHT40_ATTR_USE_RAW [0x00, 0x10, 0x00, 0x20]
      [0, 0, 0, 0, 0, 0, 0, 0],
    .sample_fetch .SENSOR_CHAN_ALL
      { reg_addr := 0x44, write_ret := 0, read_ret := 0,
        read_buf := { b0 := 0xBE, b1 := 0xEF, b2 := 0x92, b3 := 0, b4 := 0, b5 := 0x81 } } ]

/-- The value that a 32-bit signed `int` holds after an arithmetic result `x` is stored in it
with two's complement wrap-around. -/
def int32_wrap (x : Int) : Int :=
  (x + 2 ^ 31) % 2 ^ 32 - 2 ^ 31

/-- A bus that completes both transfers and delivers the triple `[hi, lo, crc]` with its matching
check byte for the temperature and for the humidity. -/
def bus_of_count (hi lo : Nat) : i2c_bus :=
  { reg_addr := 0x44, write_ret := 0, read_ret := 0,
    read_buf :=
      { b0 := hi, b1 := lo, b2 := sensirion_calc_crc { b0 := hi, b1 := lo, b2 := 0 },
        b3 := hi, b4 := lo, b5 := sensirion_calc_crc { b0 := hi, b1 := lo, b2 := 0 } } }

/-- A bus that completes both transfers and delivers the six bytes of the end-to-end scenario of
the specification, `[0x65, 0x54, 0x8C, 0x81, 0x17, 0xC7]`. -/
def bus_scenario : i2c_bus :=
  { reg_addr := 0x44, write_ret := 0, read_ret := 0,
    read_buf := { b0 := 0x65, b1 := 0x54, b2 := 0x8C, b3 := 0x81, b4 := 0x17, b5 := 0xC7 } }

/-- The device data after a fetch of `bus_good` on the initial data. -/
def dat_fetched : sht40_data :=
  (sht40_sample_fetch dat_init .SENSOR_CHAN_ALL bus_good).dat

/-- The device data after a fetch of `bus_scenario` on the initial data. -/
def dat_scenario : sht40_data :=
  (sht40_sample_fetch dat_init .SENSOR_CHAN_ALL bus_scenario).dat

/-- An all-zero object of type `struct sensor_value` on the caller's side. -/
def val_zero : List Nat := [0, 0, 0, 0, 0, 0, 0, 0]

/-- The `double` operations of `sensor_value_from_double` on the input `x` are exact: the
input, the difference `x - val1` and the product by `1000000.0` are binary64 values. -/
def conversion_doubles_exact (x : ℚ) : Prop :=
  binary64_exact x ∧
  binary64_exact (x - (int32_of_double x : ℚ)) ∧
  binary64_exact ((x - (int32_of_double x : ℚ)) * 1000000)

/-- Both fields of a `struct sensor_value` fit their type `int32_t`. -/
def sensor_value.fits (v : sensor_value) : Prop :=
  int32_wrap v.val1 = v.val1 ∧ int32_wrap v.val2 = v.val2

instance (v : sensor_value) : Decidable v.fits := by
  unfold sensor_value.fits; infer_instance

/-! ## Lemmas on the checksum -/

theorem crc8_bit_lt (crc : Nat) : crc8_bit crc < 256 := by
  unfold crc8_bit
  split <;> exact Nat.mod_lt _ (by decide)

theorem crc8_byte_lt (crc byte : Nat) : crc8_byte crc byte < 256 := by
  unfold crc8_byte
  rw [Function.iterate_succ_apply']
  exact crc8_bit_lt _

theorem sensirion_calc_crc_lt (t : bytes3) : sensirion_calc_crc t < 256 :=
  crc8_byte_lt _ _

/-! ## Lemmas on `sht40_sample_both` -/

theorem sample_both_write_fail (dat : sht40_data) (bus : i2c_bus) (h : bus.write_ret ≠ 0) :
    sht40_sample_both dat bus =
      { ret := bus.write_ret, dat := dat,
        trace := [.i2c_write dat.i2c_dev [SHT40_TEMP_HUM_H_PREC_CMD] bus.reg_addr] } := by
  simp [sht40_sample_both, h]

theorem sample_both_read_fail (dat : sht40_data) (bus : i2c_bus) (hw : bus.write_ret = 0)
    (h : bus.read_ret ≠ 0) :
    sht40_sample_both dat bus =
      { ret := bus.read_ret, dat := dat,
        trace := [.i2c_write dat.i2c_dev [SHT40_TEMP_HUM_H_PREC_CMD] bus.reg_addr,
                  .k_sleep_msec 10, .i2c_read dat.i2c_dev 6 bus.reg_addr] } := by
  simp [sht40_sample_both, hw, h]

theorem sample_both_temp_crc_fail (dat : sht40_data) (bus : i2c_bus) (hw : bus.write_ret = 0)
    (hr : bus.read_ret = 0) (h : ¬ triple_valid bus.read_buf.temp) :
    sht40_sample_both dat bus =
      { ret := -EPROTO, dat := { dat with raw_temp := bus.read_buf.temp },
        trace := [.i2c_write dat.i2c_dev [SHT40_TEMP_HUM_H_PREC_CMD] bus.reg_addr,
                  .k_sleep_msec 10, .i2c_read dat.i2c_dev 6 bus.reg_addr] } := by
  simp only [triple_valid, bytes6.temp] at h
  simp [sht40_sample_both, hw, hr, h, bytes6.temp]

theorem sample_both_hum_crc_fail (dat : sht40_data) (bus : i2c_bus) (hw : bus.write_ret = 0)
    (hr : bus.read_ret = 0) (ht : triple_valid bus.read_buf.temp)
    (h : ¬ triple_valid bus.read_buf.hum) :
    sht40_sample_both dat bus =
      { ret := -EPROTO,
        dat := { dat with raw_temp := bus.read_buf.temp, raw_humidity := bus.read_buf.hum },
        trace := [.i2c_write dat.i2c_dev [SHT40_TEMP_HUM_H_PREC_CMD] bus.reg_addr,
                  .k_sleep_msec 10, .i2c_read dat.i2c_dev 6 bus.reg_addr] } := by
  simp only [triple_valid, bytes6.temp, bytes6.hum] at h ht
  simp [sht40_sample_both, hw, hr, h, ht, bytes6.temp, bytes6.hum]

theorem sample_both_ok (dat : sht40_data) (bus : i2c_bus) (hw : bus.write_ret = 0)
    (hr : bus.read_ret = 0) (ht : triple_valid bus.read_buf.temp)
    (hh : triple_valid bus.read_buf.hum) :
    sht40_sample_both dat bus =
      { ret := 0,
        dat := { dat with
          raw_temp := bus.read_buf.temp
          raw_humidity := bus.read_buf.hum
          temperature := sensor_value_from_double
            (((((bus.read_buf.b0 <<< 8) + bus.read_buf.b1) % 2 ^ 16 : Nat) * 175 : Int) / 2 ^ 16
              - 45)
          humidity := sensor_value_from_double
            (((((bus.read_buf.b3 <<< 8) + bus.read_buf.b4) % 2 ^ 16 : Nat) * 100 : Int)
              / 2 ^ 16) },
        trace := [.i2c_write dat.i2c_dev [SHT40_TEMP_HUM_H_PREC_CMD] bus.reg_addr,
                  .k_sleep_msec 10, .i2c_read dat.i2c_dev 6 bus.reg_addr] } := by
  simp only [triple_valid, bytes6.temp, bytes6.hum] at hh ht
  simp [sht40_sample_both, hw, hr, hh, ht, bytes6.temp, bytes6.hum]

theorem sample_fetch_supported (dat : sht40_data) (chan : sensor_channel) (bus : i2c_bus)
    (h : chan.supported = true) :
    sht40_sample_fetch dat chan bus =
      { ret := 0, dat := (sht40_sample_both dat bus).dat,
        trace := (sht40_sample_both dat bus).trace } := by
  cases chan <;> simp_all [sht40_sample_fetch, sensor_channel.supported]

/-! ## Error handling of fetch -/

/-- C1, evaluated at a failing input: from the freshly initialised data, a fetch whose response
has an intact temperature triple and a humidity triple with a wrong check byte leaves
`temperature` and `humidity` as they were but has replaced `raw_temp` and `raw_humidity` by the
received bytes.  A response whose temperature triple is already wrong replaces `raw_temp`. -/
theorem sample_fetch_crc_failure_overwrites_raw :
    ¬ triple_valid bus_bad_hum_crc.read_buf.hum ∧
    (sht40_sample_both dat_init bus_bad_hum_crc).ret = -EPROTO ∧
    dat_init.raw_temp = ⟨0, 0, 0⟩ ∧ dat_init.raw_humidity = ⟨0, 0, 0⟩ ∧
    (sht40_sample_fetch dat_init .SENSOR_CHAN_ALL bus_bad_hum_crc).dat.raw_temp
      = ⟨0x65, 0x54, 0x19⟩ ∧
    (sht40_sample_fetch dat_init .SENSOR_CHAN_ALL bus_bad_hum_crc).dat.raw_humidity
      = ⟨0x81, 0x17, 0x00⟩ ∧
    (sht40_sample_fetch dat_init .SENSOR_CHAN_ALL bus_bad_hum_crc).dat.temperature
      = dat_init.temperature ∧
    (sht40_sample_fetch dat_init .SENSOR_CHAN_ALL bus_bad_hum_crc).dat.humidity
      = dat_init.humidity ∧
    ¬ triple_valid bus_bad_temp_crc.read_buf.temp ∧
    (sht40_sample_fetch dat_init .SENSOR_CHAN_ALL bus_bad_temp_crc).dat.raw_temp
      = ⟨0x65, 0x54, 0x00⟩ := by
  decide

/-- C2, evaluated at a failing input: `sht40_sample_fetch` returns 0 on every supported channel
whatever the device data and the bus are; for the response with a wrong humidity check byte
`sht40_sample_both` returns `-EPROTO`, and that value never reaches the caller of fetch. -/
theorem sample_fetch_drops_integrity_error :
    (∀ (dat : sht40_data) (bus : i2c_bus),
      (sht40_sample_fetch dat .SENSOR_CHAN_ALL bus).ret = 0 ∧
      (sht40_sample_fetch dat .SENSOR_CHAN_AMBIENT_TEMP bus).ret = 0 ∧
      (sht40_sample_fetch dat .SENSOR_CHAN_HUMIDITY bus).ret = 0) ∧
    ¬ triple_valid bus_bad_hum_crc.read_buf.hum ∧
    (sht40_sample_both dat_init bus_bad_hum_crc).ret = -EPROTO ∧
    (sht40_sample_fetch dat_init .SENSOR_CHAN_ALL bus_bad_hum_crc).ret = 0 ∧
    (sht40_sample_fetch dat_init .SENSOR_CHAN_AMBIENT_TEMP bus_bad_hum_crc).ret = 0 ∧
    (sht40_sample_fetch dat_init .SENSOR_CHAN_HUMIDITY bus_bad_hum_crc).ret = 0 ∧
    ¬ triple_valid bus_bad_temp_crc.read_buf.temp ∧
    (sht40_sample_both dat_init bus_bad_temp_crc).ret = -EPROTO ∧
    (sht40_sample_fetch dat_init .SENSOR_CHAN_ALL bus_bad_temp_crc).ret = 0 ∧
    -EPROTO ≠ 0 :=
  ⟨fun _ _ => ⟨rfl, rfl, rfl⟩, by decide, by decide, by decide, by decide, by decide,
    by decide, by decide, by decide, by decide⟩

/-- C3, evaluated at a failing input: when the write transfer fails with `-5`, and when the read
transfer fails with `-5`, `sht40_sample_both` returns `-5` but `sht40_sample_fetch` returns 0 on
every supported channel. -/
theorem sample_fetch_drops_bus_error :
    (sht40_sample_both dat_init bus_write_fails).ret = -5 ∧
    (sht40_sample_fetch dat_init .SENSOR_CHAN_ALL bus_write_fails).ret = 0 ∧
    (sht40_sample_fetch dat_init .SENSOR_CHAN_AMBIENT_TEMP bus_write_fails).ret = 0 ∧
    (sht40_sample_fetch dat_init .SENSOR_CHAN_HUMIDITY bus_write_fails).ret = 0 ∧
    (sht40_sample_both dat_init bus_read_fails).ret = -5 ∧
    (sht40_sample_fetch dat_init .SENSOR_CHAN_ALL bus_read_fails).ret = 0 ∧
    (sht40_sample_fetch dat_init .SENSOR_CHAN_AMBIENT_TEMP bus_read_fails).ret = 0 ∧
    (sht40_sample_fetch dat_init .SENSOR_CHAN_HUMIDITY bus_read_fails).ret = 0 := by
  decide

/-- C4: if the bus write fails or the bus read fails, `sht40_sample_both` and
`sht40_sample_fetch` (on any channel) leave the whole device data as it was, so every field
keeps its pre-fetch value. -/
theorem sample_fetch_bus_failure_atomic (dat : sht40_data) (chan : sensor_channel)
    (bus : i2c_bus) (h : bus.write_ret ≠ 0 ∨ bus.read_ret ≠ 0) :
    (sht40_sample_both dat bus).dat = dat ∧ (sht40_sample_fetch dat chan bus).dat = dat := by
  have hb : (sht40_sample_both dat bus).dat = dat := by
    by_cases hw : bus.write_ret = 0
    · rcases h with h | h
      · exact absurd hw h
      · rw [sample_both_read_fail dat bus hw h]
    · rw [sample_both_write_fail dat bus hw]
  refine ⟨hb, ?_⟩
  cases chan <;> simp [sht40_sample_fetch, hb]

/-- Witness for C4: the read transfer fails on data that a successful fetch has filled. -/
theorem sample_fetch_bus_failure_atomic_witness :
    (bus_read_fails.write_ret ≠ 0 ∨ bus_read_fails.read_ret ≠ 0) ∧
    (sht40_sample_both (sht40_sample_both dat_init bus_good).dat bus_read_fails).dat
      = (sht40_sample_both dat_init bus_good).dat ∧
    (sht40_sample_fetch (sht40_sample_both dat_init bus_good).dat .SENSOR_CHAN_HUMIDITY
      bus_read_fails).dat = (sht40_sample_both dat_init bus_good).dat :=
  ⟨by decide, sample_fetch_bus_failure_atomic _ _ _ (by decide)⟩

/-- C5: the checksum of the data bytes `[0x00, 0x00]` is `0x81` (and of `[0xBE, 0xEF]` is
`0x92`); the checksum is an 8-bit value and depends on the two data bytes only; a triple
`[hi, lo, crc]` is valid exactly when `crc` equals the checksum of `[hi, lo]`; and when both
transfers succeed, `sht40_sample_both` passes the response (returns 0) exactly when byte 2
equals the checksum of bytes 0..1 and byte 5 equals the checksum of bytes 3..4, and returns
`-EPROTO` exactly when one of them differs. -/
theorem sample_both_checksum_validation (dat : sht40_data) (bus : i2c_bus)
    (hw : bus.write_ret = 0) (hr : bus.read_ret = 0) :
    sensirion_calc_crc ⟨0x00, 0x00, 0x81⟩ = 0x81 ∧
    sensirion_calc_crc ⟨0xBE, 0xEF, 0x92⟩ = 0x92 ∧
    (∀ hi lo crc : Nat,
      sensirion_calc_crc ⟨hi, lo, crc⟩ = crc8_byte (crc8_byte 0xFF hi) lo ∧
      sensirion_calc_crc ⟨hi, lo, crc⟩ < 256 ∧
      (triple_valid ⟨hi, lo, crc⟩ ↔ crc = sensirion_calc_crc ⟨hi, lo, crc⟩)) ∧
    ((sht40_sample_both dat bus).ret = 0 ↔
      (bus.read_buf.b2 = sensirion_calc_crc ⟨bus.read_buf.b0, bus.read_buf.b1, bus.read_buf.b2⟩
        ∧ bus.read_buf.b5
          = sensirion_calc_crc ⟨bus.read_buf.b3, bus.read_buf.b4, bus.read_buf.b5⟩)) ∧
    ((sht40_sample_both dat bus).ret = -EPROTO ↔
      ¬ (bus.read_buf.b2
          = sensirion_calc_crc ⟨bus.read_buf.b0, bus.read_buf.b1, bus.read_buf.b2⟩
        ∧ bus.read_buf.b5
          = sensirion_calc_crc ⟨bus.read_buf.b3, bus.read_buf.b4, bus.read_buf.b5⟩)) := by
  refine ⟨by decide, by decide, ?_, ?_⟩
  · intro hi lo crc
    exact ⟨rfl, sensirion_calc_crc_lt _, by simp only [triple_valid]; exact eq_comm⟩
  · have h0 : (0 : Int) ≠ -EPROTO := by decide
    have h1 : -EPROTO ≠ (0 : Int) := by decide
    by_cases ht : triple_valid bus.read_buf.temp
    · by_cases hh : triple_valid bus.read_buf.hum
      · rw [sample_both_ok dat bus hw hr ht hh]
        exact ⟨⟨fun _ => ⟨ht.symm, hh.symm⟩, fun _ => rfl⟩,
          ⟨fun e => absurd e h0, fun e => absurd ⟨ht.symm, hh.symm⟩ e⟩⟩
      · rw [sample_both_hum_crc_fail dat bus hw hr ht hh]
        exact ⟨⟨fun e => absurd e h1, fun e => absurd e.2.symm hh⟩,
          ⟨fun _ e => hh e.2.symm, fun _ => rfl⟩⟩
    · rw [sample_both_temp_crc_fail dat bus hw hr ht]
      exact ⟨⟨fun e => absurd e h1, fun e => absurd e.1.symm ht⟩,
        ⟨fun _ e => ht e.1.symm, fun _ => rfl⟩⟩

/-- Witness for C5: a response with two intact triples on a bus that completes both
transfers. -/
theorem sample_both_checksum_validation_witness :
    bus_good.write_ret = 0 ∧ bus_good.read_ret = 0 ∧
    ((sht40_sample_both dat_init bus_good).ret = 0 ↔
      (bus_good.read_buf.b2
          = sensirion_calc_crc ⟨bus_good.read_buf.b0, bus_good.read_buf.b1, bus_good.read_buf.b2⟩
        ∧ bus_good.read_buf.b5
          = sensirion_calc_crc
              ⟨bus_good.read_buf.b3, bus_good.read_buf.b4, bus_good.read_buf.b5⟩)) :=
  ⟨by decide, by decide,
    (sample_both_checksum_validation dat_init bus_good (by decide) (by decide)).2.2.2.1⟩

/-! ## The stored triples -/

theorem sample_fetch_keeps_triples_valid (dat : sht40_data) (chan : sensor_channel)
    (bus : i2c_bus) (hinv : stored_triples_valid dat)
    (hc : (sht40_call.sample_fetch chan bus).crc_mismatch = false) :
    stored_triples_valid (sht40_sample_fetch dat chan bus).dat := by
  cases hs : chan.supported
  · cases chan <;> simp_all [sht40_sample_fetch, sensor_channel.supported]
  · rw [sample_fetch_supported dat chan bus hs]
    by_cases hw : bus.write_ret = 0
    · by_cases hr : bus.read_ret = 0
      · have hv : triple_valid bus.read_buf.temp ∧ triple_valid bus.read_buf.hum := by
          simpa [sht40_call.crc_mismatch, hs, hw, hr] using hc
        rw [sample_both_ok dat bus hw hr hv.1 hv.2]
        exact hv
      · rw [sample_both_read_fail dat bus hw hr]
        exact hinv
    · rw [sample_both_write_fail dat bus hw]
      exact hinv

theorem channel_get_dat (dat : sht40_data) (chan : sensor_channel) (val : List Nat) :
    (sht40_channel_get dat chan val).dat = dat := by
  cases chan <;> simp only [sht40_channel_get] <;> split <;> rfl

theorem attr_get_dat (dat : sht40_data) (chan : sensor_channel) (attr : sensor_attribute)
    (val_param val : List Nat) :
    (sht40_attr_get dat chan attr val_param val).dat = dat := by
  cases chan <;> rfl

theorem attr_set_raw (dat : sht40_data) (chan : sensor_channel) (attr : sensor_attribute)
    (val : sensor_value) :
    (sht40_attr_set dat chan attr val).dat.raw_temp = dat.raw_temp ∧
    (sht40_attr_set dat chan attr val).dat.raw_humidity = dat.raw_humidity := by
  cases attr <;> cases chan <;> simp [sht40_attr_set] <;> split_ifs <;> simp

theorem step_keeps_triples_valid (dat : sht40_data) (c : sht40_call)
    (hinv : stored_triples_valid dat) (hc : c.crc_mismatch = false) :
    stored_triples_valid (sht40_step dat c) := by
  cases c with
  | sample_fetch chan bus => exact sample_fetch_keeps_triples_valid dat chan bus hinv hc
  | channel_get chan val =>
    simp only [sht40_step, channel_get_dat]
    exact hinv
  | attr_set chan attr val =>
    simp only [sht40_step, stored_triples_valid]
    rw [(attr_set_raw dat chan attr val).1, (attr_set_raw dat chan attr val).2]
    exact hinv
  | attr_get chan attr val_param val =>
    simp only [sht40_step, attr_get_dat]
    exact hinv

theorem run_keeps_triples_valid (calls : List sht40_call) :
    ∀ dat : sht40_data, stored_triples_valid dat →
      (∀ c ∈ calls, c.crc_mismatch = false) → stored_triples_valid (sht40_run dat calls) := by
  induction calls with
  | nil => intro dat hinv _; exact hinv
  | cons c rest ih =>
    intro dat hinv hall
    have hstep := step_keeps_triples_valid dat c hinv (hall c (List.mem_cons_self _ _))
    exact ih (sht40_step dat c) hstep (fun c' hc' => hall c' (List.mem_cons_of_mem _ hc'))

/-- C6, refuted as stated: right after initialisation (no call made yet) the stored triples are
`[0, 0, 0]`, whose checksum `0x81` differs from the stored check byte `0`; and one fetch whose
temperature triple arrives with a wrong check byte stores that triple in `raw_temp`. -/
theorem stored_triples_invalid_reachable :
    (sht40_init sht40_data_0 1).ret = 0 ∧
    (sht40_run dat_init []).raw_temp = ⟨0, 0, 0⟩ ∧
    ¬ triple_valid (sht40_run dat_init []).raw_temp ∧
    ¬ triple_valid (sht40_run dat_init []).raw_humidity ∧
    ¬ triple_valid
      (sht40_run dat_init [.sample_fetch .SENSOR_CHAN_ALL bus_bad_temp_crc]).raw_temp :=
  ⟨by decide, by decide, by decide, by decide, by
    show ¬ triple_valid (sht40_sample_fetch dat_init .SENSOR_CHAN_ALL bus_bad_temp_crc).dat.raw_temp
    decide⟩

/-- C6, amended: once a fetch has succeeded (both transfers completed, both check bytes matched),
the stored `raw_temp` and `raw_humidity` carry matching check bytes, and they keep doing so after
any further sequence of fetch, get, set-mode and get-mode calls in which no fetch is answered by a
response with a checksum mismatch (bus failures and unsupported channels are allowed). -/
theorem stored_triples_valid_after_good_fetch (dat : sht40_data) (chan : sensor_channel)
    (bus : i2c_bus) (calls : List sht40_call) (hchan : chan.supported = true)
    (hw : bus.write_ret = 0) (hr : bus.read_ret = 0)
    (ht : triple_valid bus.read_buf.temp) (hh : triple_valid bus.read_buf.hum)
    (hcalls : ∀ c ∈ calls, c.crc_mismatch = false) :
    triple_valid (sht40_run (sht40_sample_fetch dat chan bus).dat calls).raw_temp ∧
    triple_valid (sht40_run (sht40_sample_fetch dat chan bus).dat calls).raw_humidity := by
  apply run_keeps_triples_valid calls _ _ hcalls
  rw [sample_fetch_supported dat chan bus hchan, sample_both_ok dat bus hw hr ht hh]
  exact ⟨ht, hh⟩

/-- Witness for the amended C6: a good fetch on the initial data, then `calls_sample`. -/
theorem stored_triples_valid_after_good_fetch_witness :
    sensor_channel.SENSOR_CHAN_ALL.supported = true ∧
    bus_good.write_ret = 0 ∧ bus_good.read_ret = 0 ∧
    triple_valid bus_good.read_buf.temp ∧ triple_valid bus_good.read_buf.hum ∧
    (∀ c ∈ calls_sample, c.crc_mismatch = false) ∧
    triple_valid
      (sht40_run (sht40_sample_fetch dat_init .SENSOR_CHAN_ALL bus_good).dat
        calls_sample).raw_temp ∧
    triple_valid
      (sht40_run (sht40_sample_fetch dat_init .SENSOR_CHAN_ALL bus_good).dat
        calls_sample).raw_humidity :=
  ⟨by decide, by decide, by decide, by decide, by decide, by decide,
    stored_triples_valid_after_good_fetch dat_init .SENSOR_CHAN_ALL bus_good calls_sample
      (by decide) (by decide) (by decide) (by decide) (by decide) (by decide)⟩

/-! ## Conversion -/

theorem int32_of_double_close (x : ℚ) : |(int32_of_double x : ℚ) - x| < 1 := by
  unfold int32_of_double
  split
  · have h1 := Int.floor_le x
    have h2 := Int.lt_floor_add_one x
    rw [abs_lt]
    constructor <;> linarith
  · have h1 := Int.le_ceil x
    have h2 := Int.ceil_lt_add_one x
    rw [abs_lt]
    constructor <;> linarith

theorem sensor_value_from_double_close (x : ℚ) :
    |(sensor_value_from_double x).toRat - x| < 1 / 1000000 := by
  simp only [sensor_value_from_double, sensor_value.toRat]
  have h := int32_of_double_close ((x - (int32_of_double x : ℚ)) * 1000000)
  rw [abs_lt] at h ⊢
  constructor <;> linarith

theorem conversion_steps_exact (n : Int) (hn : |n| < 2 ^ 24) :
    binary64_exact ((n : ℚ) / 65536) ∧
    binary64_exact ((n : ℚ) / 65536 - (int32_of_double ((n : ℚ) / 65536) : ℚ)) ∧
    binary64_exact
      (((n : ℚ) / 65536 - (int32_of_double ((n : ℚ) / 65536) : ℚ)) * 1000000) := by
  have hc := int32_of_double_close ((n : ℚ) / 65536)
  generalize int32_of_double ((n : ℚ) / 65536) = v at hc
  have hd : |n - 65536 * v| < 65536 := by
    rw [abs_lt] at hc ⊢
    obtain ⟨h1, h2⟩ := hc
    have h3 : ((n - 65536 * v : Int) : ℚ) < 65536 := by push_cast; linarith
    have h4 : (-65536 : ℚ) < ((n - 65536 * v : Int) : ℚ) := by push_cast; linarith
    exact ⟨by exact_mod_cast h4, by exact_mod_cast h3⟩
  refine ⟨⟨n, 16, ?_, by norm_num, by norm_num⟩,
    ⟨n - 65536 * v, 16, ?_, by norm_num, by push_cast; ring⟩,
    ⟨(n - 65536 * v) * 15625, 10, ?_, by norm_num, by push_cast; ring⟩⟩
  · exact lt_trans hn (by norm_num)
  · exact lt_trans hd (by norm_num)
  · rw [abs_lt] at hd ⊢
    constructor <;> omega

theorem temperature_steps_exact (t : Nat) (ht : t < 65536) :
    binary64_exact (((t * 175 : Int) : ℚ) / 2 ^ 16) ∧
    binary64_exact (((t * 175 : Int) : ℚ) / 2 ^ 16 - 45) ∧
    binary64_exact ((((t * 175 : Int) : ℚ) / 2 ^ 16 - 45)
      - (int32_of_double (((t * 175 : Int) : ℚ) / 2 ^ 16 - 45) : ℚ)) ∧
    binary64_exact (((((t * 175 : Int) : ℚ) / 2 ^ 16 - 45)
      - (int32_of_double (((t * 175 : Int) : ℚ) / 2 ^ 16 - 45) : ℚ)) * 1000000) := by
  have e : ((t * 175 : Int) : ℚ) / 2 ^ 16 - 45 = ((t * 175 - 2949120 : Int) : ℚ) / 65536 := by
    push_cast; ring
  have hn : |(t * 175 - 2949120 : Int)| < 2 ^ 24 := by
    rw [abs_lt]; constructor <;> omega
  have h := conversion_steps_exact (t * 175 - 2949120) hn
  rw [← e] at h
  refine ⟨⟨t * 175, 16, ?_, by norm_num, by norm_num⟩, h⟩
  rw [abs_lt]; constructor <;> omega

theorem humidity_steps_exact (h : Nat) (hh : h < 65536) :
    binary64_exact (((h * 100 : Int) : ℚ) / 2 ^ 16) ∧
    binary64_exact ((((h * 100 : Int) : ℚ) / 2 ^ 16)
      - (int32_of_double (((h * 100 : Int) : ℚ) / 2 ^ 16) : ℚ)) ∧
    binary64_exact (((((h * 100 : Int) : ℚ) / 2 ^ 16)
      - (int32_of_double (((h * 100 : Int) : ℚ) / 2 ^ 16) : ℚ)) * 1000000) := by
  have e : ((h * 100 : Int) : ℚ) / 2 ^ 16 = ((h * 100 : Int) : ℚ) / 65536 := by norm_num
  have hn : |(h * 100 : Int)| < 2 ^ 24 := by
    rw [abs_lt]; constructor <;> omega
  have hs := conversion_steps_exact (h * 100) hn
  rw [← e] at hs
  exact hs

theorem count_eq (hi lo : Nat) (hhi : hi < 256) (hlo : lo < 256) :
    ((hi <<< 8) + lo) % 2 ^ 16 = 256 * hi + lo := by
  rw [Nat.shiftLeft_eq]
  omega

theorem sample_fetch_ok_temperature (dat : sht40_data) (chan : sensor_channel) (bus : i2c_bus)
    (hchan : chan.supported = true) (hw : bus.write_ret = 0) (hr : bus.read_ret = 0)
    (ht : triple_valid bus.read_buf.temp) (hh : triple_valid bus.read_buf.hum) :
    (sht40_sample_fetch dat chan bus).dat.temperature =
      sensor_value_from_double
        (((((bus.read_buf.b0 <<< 8) + bus.read_buf.b1) % 2 ^ 16 : Nat) : ℚ) * 175 / 65536
          - 45) := by
  rw [sample_fetch_supported dat chan bus hchan, sample_both_ok dat bus hw hr ht hh]
  show sensor_value_from_double _ = sensor_value_from_double _
  congr 1
  generalize (bus.read_buf.b0 <<< 8 + bus.read_buf.b1) % 2 ^ 16 = n
  push_cast
  norm_num

theorem sample_fetch_ok_humidity (dat : sht40_data) (chan : sensor_channel) (bus : i2c_bus)
    (hchan : chan.supported = true) (hw : bus.write_ret = 0) (hr : bus.read_ret = 0)
    (ht : triple_valid bus.read_buf.temp) (hh : triple_valid bus.read_buf.hum) :
    (sht40_sample_fetch dat chan bus).dat.humidity =
      sensor_value_from_double
        (((((bus.read_buf.b3 <<< 8) + bus.read_buf.b4) % 2 ^ 16 : Nat) : ℚ) * 100 / 65536) := by
  rw [sample_fetch_supported dat chan bus hchan, sample_both_ok dat bus hw hr ht hh]
  show sensor_value_from_double _ = sensor_value_from_double _
  congr 1
  generalize (bus.read_buf.b3 <<< 8 + bus.read_buf.b4) % 2 ^ 16 = n
  push_cast
  norm_num

/-- C7: after a successful fetch (supported channel, both transfers completed, both check bytes
matching, bytes below 256) with temperature count `t = 256 * buf[0] + buf[1]`, the stored
temperature is the fixed-point image of `t * 175 / 65536 - 45` and the value it stands for,
`val1 + val2 / 1000000`, is less than one millionth away from `t * 175 / 65536 - 45`.  The count
0 stores exactly `-45.000000`; the count 65535 stores `129.997329`, less than one thousandth
away from `129.998`. -/
theorem sample_fetch_temperature_conversion (dat : sht40_data) (chan : sensor_channel)
    (bus : i2c_bus) (hchan : chan.supported = true)
    (hw : bus.write_ret = 0) (hr : bus.read_ret = 0)
    (ht : triple_valid bus.read_buf.temp) (hh : triple_valid bus.read_buf.hum)
    (h0 : bus.read_buf.b0 < 256) (h1 : bus.read_buf.b1 < 256) :
    (sht40_sample_fetch dat chan bus).dat.temperature =
      sensor_value_from_double
        (((256 * bus.read_buf.b0 + bus.read_buf.b1 : Nat) : ℚ) * 175 / 65536 - 45) ∧
    |(sht40_sample_fetch dat chan bus).dat.temperature.toRat
        - (((256 * bus.read_buf.b0 + bus.read_buf.b1 : Nat) : ℚ) * 175 / 65536 - 45)|
      < 1 / 1000000 ∧
    (sht40_sample_fetch dat chan bus_min).dat.temperature = { val1 := -45, val2 := 0 } ∧
    (sht40_sample_fetch dat chan bus_max).dat.temperature = { val1 := 129, val2 := 997329 } ∧
    |sensor_value.toRat { val1 := 129, val2 := 997329 } - 129998 / 1000| < 1 / 1000 := by
  have key := sample_fetch_ok_temperature dat chan bus hchan hw hr ht hh
  rw [count_eq _ _ h0 h1] at key
  refine ⟨key, ?_, ?_, ?_, ?_⟩
  · rw [key]
    exact sensor_value_from_double_close _
  · rw [sample_fetch_ok_temperature dat chan bus_min hchan rfl rfl (by decide) (by decide)]
    decide!
  · rw [sample_fetch_ok_temperature dat chan bus_max hchan rfl rfl (by decide) (by decide)]
    decide!
  · decide!

/-- Witness for C7: the good response on the initial data, count `0x6554`. -/
theorem sample_fetch_temperature_conversion_witness :
    sensor_channel.SENSOR_CHAN_ALL.supported = true ∧
    bus_good.write_ret = 0 ∧ bus_good.read_ret = 0 ∧
    triple_valid bus_good.read_buf.temp ∧ triple_valid bus_good.read_buf.hum ∧
    bus_good.read_buf.b0 < 256 ∧ bus_good.read_buf.b1 < 256 ∧
    (sht40_sample_fetch dat_init .SENSOR_CHAN_ALL bus_good).dat.temperature =
      sensor_value_from_double
        (((256 * bus_good.read_buf.b0 + bus_good.read_buf.b1 : Nat) : ℚ) * 175 / 65536 - 45) :=
  ⟨by decide, by decide, by decide, by decide, by decide, by decide, by decide,
    (sample_fetch_temperature_conversion dat_init .SENSOR_CHAN_ALL bus_good (by decide)
      (by decide) (by decide) (by decide) (by decide) (by decide) (by decide)).1⟩

/-- C8: after a successful fetch (supported channel, both transfers completed, both check bytes
matching, bytes below 256) with humidity count `h = 256 * buf[3] + buf[4]`, the stored humidity
is the fixed-point image of `h * 100 / 65536` and the value it stands for,
`val1 + val2 / 1000000`, is less than one millionth away from `h * 100 / 65536`.  The count 0
stores exactly `0.000000`; the count 65535 stores `99.998474`, less than one thousandth away
from `99.998`. -/
theorem sample_fetch_humidity_conversion (dat : sht40_data) (chan : sensor_channel)
    (bus : i2c_bus) (hchan : chan.supported = true)
    (hw : bus.write_ret = 0) (hr : bus.read_ret = 0)
    (ht : triple_valid bus.read_buf.temp) (hh : triple_valid bus.read_buf.hum)
    (h3 : bus.read_buf.b3 < 256) (h4 : bus.read_buf.b4 < 256) :
    (sht40_sample_fetch dat chan bus).dat.humidity =
      sensor_value_from_double
        (((256 * bus.read_buf.b3 + bus.read_buf.b4 : Nat) : ℚ) * 100 / 65536) ∧
    |(sht40_sample_fetch dat chan bus).dat.humidity.toRat
        - (((256 * bus.read_buf.b3 + bus.read_buf.b4 : Nat) : ℚ) * 100 / 65536)|
      < 1 / 1000000 ∧
    (sht40_sample_fetch dat chan bus_min).dat.humidity = { val1 := 0, val2 := 0 } ∧
    (sht40_sample_fetch dat chan bus_max).dat.humidity = { val1 := 99, val2 := 998474 } ∧
    |sensor_value.toRat { val1 := 99, val2 := 998474 } - 99998 / 1000| < 1 / 1000 := by
  have key := sample_fetch_ok_humidity dat chan bus hchan hw hr ht hh
  rw [count_eq _ _ h3 h4] at key
  refine ⟨key, ?_, ?_, ?_, ?_⟩
  · rw [key]
    exact sensor_value_from_double_close _
  · rw [sample_fetch_ok_humidity dat chan bus_min hchan rfl rfl (by decide) (by decide)]
    decide!
  · rw [sample_fetch_ok_humidity dat chan bus_max hchan rfl rfl (by decide) (by decide)]
    decide!
  · decide!

/-- Witness for C8: the good response on the initial data, count `0x8117`. -/
theorem sample_fetch_humidity_conversion_witness :
    sensor_channel.SENSOR_CHAN_HUMIDITY.supported = true ∧
    bus_good.write_ret = 0 ∧ bus_good.read_ret = 0 ∧
    triple_valid bus_good.read_buf.temp ∧ triple_valid bus_good.read_buf.hum ∧
    bus_good.read_buf.b3 < 256 ∧ bus_good.read_buf.b4 < 256 ∧
    (sht40_sample_fetch dat_init .SENSOR_CHAN_HUMIDITY bus_good).dat.humidity =
      sensor_value_from_double
        (((256 * bus_good.read_buf.b3 + bus_good.read_buf.b4 : Nat) : ℚ) * 100 / 65536) :=
  ⟨by decide, by decide, by decide, by decide, by decide, by decide, by decide,
    (sample_fetch_humidity_conversion dat_init .SENSOR_CHAN_HUMIDITY bus_good (by decide)
      (by decide) (by decide) (by decide) (by decide) (by decide) (by decide)).1⟩

/-! ## Reading a channel and reading the mode -/

theorem int32_bytes_length (x : Int) : (int32_bytes x).length = 4 := rfl

theorem sensor_value_bytes_length (v : sensor_value) : (sensor_value_bytes v).length = 8 := rfl

theorem memcpy_raw_take (val : List Nat) (t : bytes3) :
    (memcpy (memset val 0 sizeof_sensor_value) t.toList 3).take 8
      = [t.b0, t.b1, t.b2, 0, 0, 0, 0, 0] := by
  simp [memcpy, memset, bytes3.toList, sizeof_sensor_value, List.replicate]

theorem memcpy_raw_drop (val : List Nat) (t : bytes3) :
    (memcpy (memset val 0 sizeof_sensor_value) t.toList 3).drop 8 = val.drop 8 := by
  simp [memcpy, memset, bytes3.toList, sizeof_sensor_value, List.replicate]

theorem memcpy_value (val : List Nat) (v : sensor_value) :
    memcpy (memset val 0 sizeof_sensor_value) (sensor_value_bytes v) sizeof_sensor_value
      = sensor_value_bytes v ++ val.drop 8 := by
  have h : (sensor_value_bytes v).take 8 = sensor_value_bytes v :=
    List.take_of_length_le (le_of_eq (sensor_value_bytes_length v))
  simp [memcpy, memset, sizeof_sensor_value, h, List.replicate]

/-- C9: for every device data and every previous content of the caller's object,
`sht40_channel_get` on the temperature channel and on the humidity channel returns 0 and leaves
the device data as it was.  The eight bytes of the caller's object afterwards are, in raw mode,
the three stored raw bytes of the channel followed by five zero bytes and, in processed mode, the
eight bytes of the stored `struct sensor_value` of the channel; bytes behind the object are not
touched.  On every channel selector the device data is left as it was. -/
theorem channel_get_mode_aware (dat : sht40_data) (val : List Nat) :
    (sht40_channel_get dat .SENSOR_CHAN_AMBIENT_TEMP val).ret = 0 ∧
    (sht40_channel_get dat .SENSOR_CHAN_AMBIENT_TEMP val).dat = dat ∧
    (sht40_channel_get dat .SENSOR_CHAN_AMBIENT_TEMP val).val.take 8 =
      (if dat.use_raw_temp
        then [dat.raw_temp.b0, dat.raw_temp.b1, dat.raw_temp.b2, 0, 0, 0, 0, 0]
        else sensor_value_bytes dat.temperature) ∧
    (sht40_channel_get dat .SENSOR_CHAN_AMBIENT_TEMP val).val.drop 8 = val.drop 8 ∧
    (sht40_channel_get dat .SENSOR_CHAN_HUMIDITY val).ret = 0 ∧
    (sht40_channel_get dat .SENSOR_CHAN_HUMIDITY val).dat = dat ∧
    (sht40_channel_get dat .SENSOR_CHAN_HUMIDITY val).val.take 8 =
      (if dat.use_raw_humidity
        then [dat.raw_humidity.b0, dat.raw_humidity.b1, dat.raw_humidity.b2, 0, 0, 0, 0, 0]
        else sensor_value_bytes dat.humidity) ∧
    (sht40_channel_get dat .SENSOR_CHAN_HUMIDITY val).val.drop 8 = val.drop 8 ∧
    (∀ chan : sensor_channel, (sht40_channel_get dat chan val).dat = dat) := by
  have hl := sensor_value_bytes_length
  refine ⟨?_, channel_get_dat _ _ _, ?_, ?_, ?_, channel_get_dat _ _ _, ?_, ?_,
    fun chan => channel_get_dat dat chan val⟩
  · simp only [sht40_channel_get]; split <;> rfl
  · simp only [sht40_channel_get]
    split
    · exact memcpy_raw_take _ _
    · rw [memcpy_value]; simp [hl]
  · simp only [sht40_channel_get]
    split
    · exact memcpy_raw_drop _ _
    · rw [memcpy_value]; simp [hl]
  · simp only [sht40_channel_get]; split <;> rfl
  · simp only [sht40_channel_get]
    split
    · exact memcpy_raw_take _ _
    · rw [memcpy_value]; simp [hl]
  · simp only [sht40_channel_get]
    split
    · exact memcpy_raw_drop _ _
    · rw [memcpy_value]; simp [hl]

/-- C10, evaluated at a failing input: `sht40_attr_get` never changes the object of the caller
(it writes the flag into the first byte of its own parameter variable).  With the temperature
channel in raw mode and the caller's object all zero, the call returns 0, the caller's object is
still all zero, so its first byte is 0 and not 1; the flag byte 1 sits in the parameter
variable. -/
theorem attr_get_leaves_output_untouched :
    (∀ (data : sht40_data) (chan : sensor_channel) (attr : sensor_attribute)
        (val_param val : List Nat),
      (sht40_attr_get data chan attr val_param val).val = val) ∧
    dat_raw_temp.use_raw_temp = true ∧
    (sht40_attr_get dat_raw_temp .SENSOR_CHAN_AMBIENT_TEMP .SHT40_ATTR_USE_RAW
      [0x00, 0x10, 0x00, 0x20] [0, 0, 0, 0, 0, 0, 0, 0]).ret = 0 ∧
    (sht40_attr_get dat_raw_temp .SENSOR_CHAN_AMBIENT_TEMP .SHT40_ATTR_USE_RAW
      [0x00, 0x10, 0x00, 0x20] [0, 0, 0, 0, 0, 0, 0, 0]).val = [0, 0, 0, 0, 0, 0, 0, 0] ∧
    (sht40_attr_get dat_raw_temp .SENSOR_CHAN_AMBIENT_TEMP .SHT40_ATTR_USE_RAW
      [0x00, 0x10, 0x00, 0x20] [0, 0, 0, 0, 0, 0, 0, 0]).val_param
        = [0x01, 0x10, 0x00, 0x20] := by
  refine ⟨?_, by decide, by decide, by decide, by decide⟩
  intro data chan attr val_param val
  cases chan <;> rfl

/-! ## Mode flags -/

theorem attr_set_ret (data : sht40_data) (chan : sensor_channel) (attr : sensor_attribute)
    (val : sensor_value) : (sht40_attr_set data chan attr val).ret = 0 := by
  cases attr <;> cases chan <;> simp [sht40_attr_set] <;> split_ifs <;> simp

theorem attr_set_temp (data : sht40_data) (val : sensor_value) :
    (sht40_attr_set data .SENSOR_CHAN_AMBIENT_TEMP .SHT40_ATTR_USE_RAW val).dat =
      { data with use_raw_temp :=
          if val.val1 > 0 then true else if val.val1 = 0 then false else data.use_raw_temp } := by
  simp only [sht40_attr_set]
  split_ifs <;> rfl

theorem attr_set_hum (data : sht40_data) (val : sensor_value) :
    (sht40_attr_set data .SENSOR_CHAN_HUMIDITY .SHT40_ATTR_USE_RAW val).dat =
      { data with use_raw_humidity :=
          if val.val1 > 0 then true else if val.val1 = 0 then false
          else data.use_raw_humidity } := by
  simp only [sht40_attr_set]
  split_ifs <;> rfl

theorem attr_set_other_attr (data : sht40_data) (chan : sensor_channel) (id : Nat)
    (val : sensor_value) :
    sht40_attr_set data chan (.SENSOR_ATTR_OTHER id) val = { ret := 0, dat := data } := by
  cases chan <;> rfl

theorem sample_both_flags (dat : sht40_data) (bus : i2c_bus) :
    (sht40_sample_both dat bus).dat.use_raw_temp = dat.use_raw_temp ∧
    (sht40_sample_both dat bus).dat.use_raw_humidity = dat.use_raw_humidity := by
  by_cases hw : bus.write_ret = 0
  · by_cases hr : bus.read_ret = 0
    · by_cases ht : triple_valid bus.read_buf.temp
      · by_cases hh : triple_valid bus.read_buf.hum
        · rw [sample_both_ok dat bus hw hr ht hh]; exact ⟨rfl, rfl⟩
        · rw [sample_both_hum_crc_fail dat bus hw hr ht hh]; exact ⟨rfl, rfl⟩
      · rw [sample_both_temp_crc_fail dat bus hw hr ht]; exact ⟨rfl, rfl⟩
    · rw [sample_both_read_fail dat bus hw hr]; exact ⟨rfl, rfl⟩
  · rw [sample_both_write_fail dat bus hw]; exact ⟨rfl, rfl⟩

theorem channel_get_temp_congr (d1 d2 : sht40_data) (val : List Nat)
    (hf : d1.use_raw_temp = d2.use_raw_temp) (hr : d1.raw_temp = d2.raw_temp)
    (hv : d1.temperature = d2.temperature) :
    (sht40_channel_get d1 .SENSOR_CHAN_AMBIENT_TEMP val).ret
      = (sht40_channel_get d2 .SENSOR_CHAN_AMBIENT_TEMP val).ret ∧
    (sht40_channel_get d1 .SENSOR_CHAN_AMBIENT_TEMP val).val
      = (sht40_channel_get d2 .SENSOR_CHAN_AMBIENT_TEMP val).val := by
  simp only [sht40_channel_get, hf, hr, hv]
  split <;> exact ⟨rfl, rfl⟩

theorem channel_get_hum_congr (d1 d2 : sht40_data) (val : List Nat)
    (hf : d1.use_raw_humidity = d2.use_raw_humidity) (hr : d1.raw_humidity = d2.raw_humidity)
    (hv : d1.humidity = d2.humidity) :
    (sht40_channel_get d1 .SENSOR_CHAN_HUMIDITY val).ret
      = (sht40_channel_get d2 .SENSOR_CHAN_HUMIDITY val).ret ∧
    (sht40_channel_get d1 .SENSOR_CHAN_HUMIDITY val).val
      = (sht40_channel_get d2 .SENSOR_CHAN_HUMIDITY val).val := by
  simp only [sht40_channel_get, hf, hr, hv]
  split <;> exact ⟨rfl, rfl⟩

/-- C11: for every device data, attribute and value, `sht40_attr_set` on the temperature channel
leaves `use_raw_humidity`, `temperature`, `humidity`, `raw_temp` and `raw_humidity` as they
were, and on the humidity channel leaves `use_raw_temp` and the same four data fields as they
were.  So what `sht40_channel_get` returns for one channel (return code and bytes of the
result) is the same before and after a mode change of the other channel. -/
theorem attr_set_mode_independence (data : sht40_data) (attr : sensor_attribute)
    (v : sensor_value) (val : List Nat) :
    ((sht40_attr_set data .SENSOR_CHAN_AMBIENT_TEMP attr v).dat.use_raw_humidity
        = data.use_raw_humidity ∧
      (sht40_attr_set data .SENSOR_CHAN_AMBIENT_TEMP attr v).dat.temperature = data.temperature ∧
      (sht40_attr_set data .SENSOR_CHAN_AMBIENT_TEMP attr v).dat.humidity = data.humidity ∧
      (sht40_attr_set data .SENSOR_CHAN_AMBIENT_TEMP attr v).dat.raw_temp = data.raw_temp ∧
      (sht40_attr_set data .SENSOR_CHAN_AMBIENT_TEMP attr v).dat.raw_humidity
        = data.raw_humidity) ∧
    ((sht40_attr_set data .SENSOR_CHAN_HUMIDITY attr v).dat.use_raw_temp = data.use_raw_temp ∧
      (sht40_attr_set data .SENSOR_CHAN_HUMIDITY attr v).dat.temperature = data.temperature ∧
      (sht40_attr_set data .SENSOR_CHAN_HUMIDITY attr v).dat.humidity = data.humidity ∧
      (sht40_attr_set data .SENSOR_CHAN_HUMIDITY attr v).dat.raw_temp = data.raw_temp ∧
      (sht40_attr_set data .SENSOR_CHAN_HUMIDITY attr v).dat.raw_humidity
        = data.raw_humidity) ∧
    ((sht40_channel_get (sht40_attr_set data .SENSOR_CHAN_HUMIDITY attr v).dat
          .SENSOR_CHAN_AMBIENT_TEMP val).ret
        = (sht40_channel_get data .SENSOR_CHAN_AMBIENT_TEMP val).ret ∧
      (sht40_channel_get (sht40_attr_set data .SENSOR_CHAN_HUMIDITY attr v).dat
          .SENSOR_CHAN_AMBIENT_TEMP val).val
        = (sht40_channel_get data .SENSOR_CHAN_AMBIENT_TEMP val).val) ∧
    ((sht40_channel_get (sht40_attr_set data .SENSOR_CHAN_AMBIENT_TEMP attr v).dat
          .SENSOR_CHAN_HUMIDITY val).ret
        = (sht40_channel_get data .SENSOR_CHAN_HUMIDITY val).ret ∧
      (sht40_channel_get (sht40_attr_set data .SENSOR_CHAN_AMBIENT_TEMP attr v).dat
          .SENSOR_CHAN_HUMIDITY val).val
        = (sht40_channel_get data .SENSOR_CHAN_HUMIDITY val).val) := by
  cases attr with
  | SHT40_ATTR_USE_RAW =>
    rw [attr_set_temp, attr_set_hum]
    exact ⟨⟨rfl, rfl, rfl, rfl, rfl⟩, ⟨rfl, rfl, rfl, rfl, rfl⟩,
      channel_get_temp_congr _ _ val rfl rfl rfl, channel_get_hum_congr _ _ val rfl rfl rfl⟩
  | SENSOR_ATTR_OTHER id =>
    rw [attr_set_other_attr, attr_set_other_attr]
    exact ⟨⟨rfl, rfl, rfl, rfl, rfl⟩, ⟨rfl, rfl, rfl, rfl, rfl⟩, ⟨rfl, rfl⟩, ⟨rfl, rfl⟩⟩

/-- C12: for every device data, every channel argument (supported or not) and every bus outcome
(write failure, read failure, checksum failure, success), `sht40_sample_fetch` leaves
`use_raw_temp` and `use_raw_humidity` equal to their values before the fetch. -/
theorem sample_fetch_keeps_mode_flags (dat : sht40_data) (chan : sensor_channel)
    (bus : i2c_bus) :
    (sht40_sample_fetch dat chan bus).dat.use_raw_temp = dat.use_raw_temp ∧
    (sht40_sample_fetch dat chan bus).dat.use_raw_humidity = dat.use_raw_humidity := by
  cases chan with
  | SENSOR_CHAN_OTHER id => exact ⟨rfl, rfl⟩
  | SENSOR_CHAN_ALL => exact sample_both_flags dat bus
  | SENSOR_CHAN_AMBIENT_TEMP => exact sample_both_flags dat bus
  | SENSOR_CHAN_HUMIDITY => exact sample_both_flags dat bus

/-- C14: on every channel selector other than all / temperature / humidity,
`sht40_sample_fetch` returns `-EINVAL`, makes no call to the bus or the kernel, and leaves the
device data as it was; on the selector `all` and on every other selector that is not temperature
or humidity, `sht40_channel_get` returns `-EINVAL` and leaves the device data as it was.  The
code `-EINVAL` is not 0. -/
theorem invalid_channel_rejected (dat : sht40_data) (id : Nat) (bus : i2c_bus)
    (val : List Nat) :
    (sht40_sample_fetch dat (.SENSOR_CHAN_OTHER id) bus).ret = -EINVAL ∧
    (sht40_sample_fetch dat (.SENSOR_CHAN_OTHER id) bus).trace = [] ∧
    (sht40_sample_fetch dat (.SENSOR_CHAN_OTHER id) bus).dat = dat ∧
    (sht40_channel_get dat .SENSOR_CHAN_ALL val).ret = -EINVAL ∧
    (sht40_channel_get dat .SENSOR_CHAN_ALL val).dat = dat ∧
    (sht40_channel_get dat (.SENSOR_CHAN_OTHER id) val).ret = -EINVAL ∧
    (sht40_channel_get dat (.SENSOR_CHAN_OTHER id) val).dat = dat ∧
    -EINVAL ≠ 0 :=
  ⟨rfl, rfl, rfl, rfl, rfl, rfl, rfl, by decide⟩

/-- C15: for every device data and every value, `sht40_attr_set` with the attribute
`SHT40_ATTR_USE_RAW` on a channel that is neither temperature nor humidity (`all` or any other
selector), and `sht40_attr_set` with any other attribute on any channel, returns 0 and leaves the
whole device data as it was. -/
theorem attr_set_permissive (data : sht40_data) (val : sensor_value) (id : Nat)
    (chan : sensor_channel) :
    sht40_attr_set data .SENSOR_CHAN_ALL .SHT40_ATTR_USE_RAW val = { ret := 0, dat := data } ∧
    sht40_attr_set data (.SENSOR_CHAN_OTHER id) .SHT40_ATTR_USE_RAW val
      = { ret := 0, dat := data } ∧
    sht40_attr_set data chan (.SENSOR_ATTR_OTHER id) val = { ret := 0, dat := data } :=
  ⟨rfl, rfl, attr_set_other_attr data chan id val⟩

/-- C20: with the attribute `SHT40_ATTR_USE_RAW`, `sht40_attr_set` on the temperature channel
returns 0 and sets `use_raw_temp` to true if `val1 > 0`, to false if `val1 = 0`, and keeps it if
`val1 < 0`, changing no other field; on the humidity channel it does the same to
`use_raw_humidity`.  The outcome does not depend on `val2`. -/
theorem attr_set_value_handling (data : sht40_data) (val1 val2 val2' : Int) :
    (sht40_attr_set data .SENSOR_CHAN_AMBIENT_TEMP .SHT40_ATTR_USE_RAW
        { val1 := val1, val2 := val2 }).ret = 0 ∧
    (sht40_attr_set data .SENSOR_CHAN_AMBIENT_TEMP .SHT40_ATTR_USE_RAW
        { val1 := val1, val2 := val2 }).dat =
      { data with use_raw_temp :=
          if val1 > 0 then true else if val1 = 0 then false else data.use_raw_temp } ∧
    (sht40_attr_set data .SENSOR_CHAN_HUMIDITY .SHT40_ATTR_USE_RAW
        { val1 := val1, val2 := val2 }).ret = 0 ∧
    (sht40_attr_set data .SENSOR_CHAN_HUMIDITY .SHT40_ATTR_USE_RAW
        { val1 := val1, val2 := val2 }).dat =
      { data with use_raw_humidity :=
          if val1 > 0 then true else if val1 = 0 then false else data.use_raw_humidity } ∧
    sht40_attr_set data .SENSOR_CHAN_AMBIENT_TEMP .SHT40_ATTR_USE_RAW
        { val1 := val1, val2 := val2 }
      = sht40_attr_set data .SENSOR_CHAN_AMBIENT_TEMP .SHT40_ATTR_USE_RAW
        { val1 := val1, val2 := val2' } ∧
    sht40_attr_set data .SENSOR_CHAN_HUMIDITY .SHT40_ATTR_USE_RAW
        { val1 := val1, val2 := val2 }
      = sht40_attr_set data .SENSOR_CHAN_HUMIDITY .SHT40_ATTR_USE_RAW
        { val1 := val1, val2 := val2' } :=
  ⟨attr_set_ret _ _ _ _, attr_set_temp _ _, attr_set_ret _ _ _ _, attr_set_hum _ _, rfl, rfl⟩

/-! ## What a fetch stores and what it sends -/

/-- C16: for every device data, supported channel and response whose transfers both succeed,
whose check bytes both match and whose data bytes are below 256, `sht40_sample_fetch` returns 0
(and so does `sht40_sample_both`), and afterwards `raw_temp` is bytes 0..2, `raw_humidity` is
bytes 3..5, `temperature` is the conversion of the count `256 * buf[0] + buf[1]` and `humidity`
the conversion of `256 * buf[3] + buf[4]`; the bus handle and the mode flags are as before. -/
theorem sample_fetch_stores_response (dat : sht40_data) (chan : sensor_channel) (bus : i2c_bus)
    (hchan : chan.supported = true) (hw : bus.write_ret = 0) (hr : bus.read_ret = 0)
    (ht : triple_valid bus.read_buf.temp) (hh : triple_valid bus.read_buf.hum)
    (h0 : bus.read_buf.b0 < 256) (h1 : bus.read_buf.b1 < 256)
    (h3 : bus.read_buf.b3 < 256) (h4 : bus.read_buf.b4 < 256) :
    (sht40_sample_fetch dat chan bus).ret = 0 ∧
    (sht40_sample_both dat bus).ret = 0 ∧
    (sht40_sample_fetch dat chan bus).dat =
      { i2c_dev := dat.i2c_dev
        temperature := sensor_value_from_double
          (((256 * bus.read_buf.b0 + bus.read_buf.b1 : Nat) : ℚ) * 175 / 65536 - 45)
        humidity := sensor_value_from_double
          (((256 * bus.read_buf.b3 + bus.read_buf.b4 : Nat) : ℚ) * 100 / 65536)
        raw_temp := { b0 := bus.read_buf.b0, b1 := bus.read_buf.b1, b2 := bus.read_buf.b2 }
        raw_humidity := { b0 := bus.read_buf.b3, b1 := bus.read_buf.b4, b2 := bus.read_buf.b5 }
        use_raw_temp := dat.use_raw_temp
        use_raw_humidity := dat.use_raw_humidity } := by
  have kt := sample_fetch_ok_temperature dat chan bus hchan hw hr ht hh
  have kh := sample_fetch_ok_humidity dat chan bus hchan hw hr ht hh
  rw [count_eq _ _ h0 h1] at kt
  rw [count_eq _ _ h3 h4] at kh
  refine ⟨?_, ?_, ?_⟩
  · rw [sample_fetch_supported dat chan bus hchan]
  · rw [sample_both_ok dat bus hw hr ht hh]
  · rw [← kt, ← kh, sample_fetch_supported dat chan bus hchan,
      sample_both_ok dat bus hw hr ht hh]
    rfl

/-- Witness for C16: the good response on data whose temperature channel is in raw mode. -/
theorem sample_fetch_stores_response_witness :
    sensor_channel.SENSOR_CHAN_AMBIENT_TEMP.supported = true ∧
    bus_good.write_ret = 0 ∧ bus_good.read_ret = 0 ∧
    triple_valid bus_good.read_buf.temp ∧ triple_valid bus_good.read_buf.hum ∧
    bus_good.read_buf.b0 < 256 ∧ bus_good.read_buf.b1 < 256 ∧
    bus_good.read_buf.b3 < 256 ∧ bus_good.read_buf.b4 < 256 ∧
    (sht40_sample_fetch dat_raw_temp .SENSOR_CHAN_AMBIENT_TEMP bus_good).ret = 0 ∧
    (sht40_sample_both dat_raw_temp bus_good).ret = 0 :=
  ⟨by decide, by decide, by decide, by decide, by decide, by decide, by decide, by decide,
    by decide,
    (sample_fetch_stores_response dat_raw_temp .SENSOR_CHAN_AMBIENT_TEMP bus_good (by decide)
      (by decide) (by decide) (by decide) (by decide) (by decide) (by decide) (by decide)
      (by decide)).1,
    (sample_fetch_stores_response dat_raw_temp .SENSOR_CHAN_AMBIENT_TEMP bus_good (by decide)
      (by decide) (by decide) (by decide) (by decide) (by decide) (by decide) (by decide)
      (by decide)).2.1⟩

theorem sample_both_trace (dat : sht40_data) (bus : i2c_bus) :
    (sht40_sample_both dat bus).trace =
      if bus.write_ret ≠ 0 then [bus_event.i2c_write dat.i2c_dev [0xFD] bus.reg_addr]
      else [bus_event.i2c_write dat.i2c_dev [0xFD] bus.reg_addr, bus_event.k_sleep_msec 10,
            bus_event.i2c_read dat.i2c_dev 6 bus.reg_addr] := by
  by_cases hw : bus.write_ret = 0
  · rw [if_neg (not_not.mpr hw)]
    by_cases hr : bus.read_ret = 0
    · by_cases ht : triple_valid bus.read_buf.temp
      · by_cases hh : triple_valid bus.read_buf.hum
        · rw [sample_both_ok dat bus hw hr ht hh]; rfl
        · rw [sample_both_hum_crc_fail dat bus hw hr ht hh]; rfl
      · rw [sample_both_temp_crc_fail dat bus hw hr ht]; rfl
    · rw [sample_both_read_fail dat bus hw hr]; rfl
  · rw [if_pos hw, sample_both_write_fail dat bus hw]; rfl

/-- C17: on every supported channel and for every bus outcome, the calls that
`sht40_sample_fetch` makes are: if the write fails, the one call `i2c_write` of the single byte
`0xFD` to the sensor address and nothing else; if the write succeeds, that `i2c_write`, then
`k_sleep` of 10 milliseconds, then one `i2c_read` of 6 bytes from the same address, whether the
read succeeds or not. -/
theorem sample_fetch_transfer_protocol (dat : sht40_data) (chan : sensor_channel)
    (bus : i2c_bus) (hchan : chan.supported = true) :
    SHT40_TEMP_HUM_H_PREC_CMD = 0xFD ∧
    (sht40_sample_fetch dat chan bus).trace =
      if bus.write_ret ≠ 0 then [bus_event.i2c_write dat.i2c_dev [0xFD] bus.reg_addr]
      else [bus_event.i2c_write dat.i2c_dev [0xFD] bus.reg_addr, bus_event.k_sleep_msec 10,
            bus_event.i2c_read dat.i2c_dev 6 bus.reg_addr] := by
  refine ⟨rfl, ?_⟩
  rw [sample_fetch_supported dat chan bus hchan]
  exact sample_both_trace dat bus

/-- Witness for C17: a fetch on the humidity channel whose read transfer fails. -/
theorem sample_fetch_transfer_protocol_witness :
    sensor_channel.SENSOR_CHAN_HUMIDITY.supported = true ∧
    (sht40_sample_fetch dat_init .SENSOR_CHAN_HUMIDITY bus_read_fails).trace =
      [bus_event.i2c_write 1 [0xFD] 0x44, bus_event.k_sleep_msec 10,
       bus_event.i2c_read 1 6 0x44] :=
  ⟨by decide,
    (sample_fetch_transfer_protocol dat_init .SENSOR_CHAN_HUMIDITY bus_read_fails
      (by decide)).2⟩

/-! ## Range of the conversion arithmetic -/

theorem int32_wrap_eq (x : Int) (h1 : -2 ^ 31 ≤ x) (h2 : x < 2 ^ 31) : int32_wrap x = x := by
  unfold int32_wrap
  omega

theorem int32_of_double_bound (x : ℚ) (b : Int) (hx : |x| ≤ b) :
    -(b + 1) ≤ int32_of_double x ∧ int32_of_double x ≤ b + 1 := by
  have hc := int32_of_double_close x
  rw [abs_lt] at hc
  rw [abs_le] at hx
  obtain ⟨h1, h2⟩ := hc
  obtain ⟨h3, h4⟩ := hx
  have h5 : ((-(b + 1) : Int) : ℚ) ≤ (int32_of_double x : ℚ) := by push_cast; linarith
  have h6 : (int32_of_double x : ℚ) ≤ ((b + 1 : Int) : ℚ) := by push_cast; linarith
  exact ⟨by exact_mod_cast h5, by exact_mod_cast h6⟩

theorem sensor_value_from_double_fits (x : ℚ) (hx : |x| ≤ 1000) :
    (sensor_value_from_double x).fits := by
  have hc := int32_of_double_close x
  have h1 := int32_of_double_bound x 1000 (by exact_mod_cast hx)
  have hf : |(x - (int32_of_double x : ℚ)) * 1000000| ≤ ((1000000 : Int) : ℚ) := by
    rw [abs_lt] at hc
    rw [abs_le]
    push_cast
    constructor <;> linarith
  have h2 := int32_of_double_bound _ 1000000 hf
  show int32_wrap (int32_of_double x) = int32_of_double x ∧
    int32_wrap (int32_of_double ((x - (int32_of_double x : ℚ)) * 1000000))
      = int32_of_double ((x - (int32_of_double x : ℚ)) * 1000000)
  exact ⟨int32_wrap_eq _ (by omega) (by omega), int32_wrap_eq _ (by omega) (by omega)⟩

theorem bus_of_count_valid (hi lo : Nat) :
    triple_valid (bus_of_count hi lo).read_buf.temp ∧
    triple_valid (bus_of_count hi lo).read_buf.hum :=
  ⟨rfl, rfl⟩

/-- C19: for all bytes `hi`, `lo` below 256 the count `(hi << 8) + lo` is at most 65535, so the
store into the `uint16_t` variable keeps it and it equals `256 * hi + lo`; the products
`count * 175` and `count * 100` are at most 11468625 and are kept by a 32-bit signed `int`; every
`double` operation of the two conversions is exact and the results of the casts to `int32_t`
fit; and the temperature and the humidity that `sht40_sample_both` stores for the triple
`[hi, lo, crc]` are the conversions of the mathematical values `count * 175 / 65536 - 45` and
`count * 100 / 65536`. -/
theorem conversion_arithmetic_exact (hi lo : Nat) (hhi : hi < 256) (hlo : lo < 256)
    (dat : sht40_data) :
    (hi <<< 8) + lo ≤ 65535 ∧
    ((hi <<< 8) + lo) % 2 ^ 16 = (hi <<< 8) + lo ∧
    (hi <<< 8) + lo = 256 * hi + lo ∧
    (256 * hi + lo) * 175 ≤ 11468625 ∧
    (256 * hi + lo) * 100 ≤ 11468625 ∧
    int32_wrap (((256 * hi + lo : Nat) : Int) * 175) = ((256 * hi + lo : Nat) : Int) * 175 ∧
    int32_wrap (((256 * hi + lo : Nat) : Int) * 100) = ((256 * hi + lo : Nat) : Int) * 100 ∧
    binary64_exact ((((256 * hi + lo : Nat) * 175 : Int) : ℚ) / 2 ^ 16) ∧
    conversion_doubles_exact ((((256 * hi + lo : Nat) * 175 : Int) : ℚ) / 2 ^ 16 - 45) ∧
    conversion_doubles_exact ((((256 * hi + lo : Nat) * 100 : Int) : ℚ) / 2 ^ 16) ∧
    (sht40_sample_both dat (bus_of_count hi lo)).ret = 0 ∧
    (sht40_sample_both dat (bus_of_count hi lo)).dat.temperature =
      sensor_value_from_double (((256 * hi + lo : Nat) : ℚ) * 175 / 65536 - 45) ∧
    (sht40_sample_both dat (bus_of_count hi lo)).dat.humidity =
      sensor_value_from_double (((256 * hi + lo : Nat) : ℚ) * 100 / 65536) ∧
    (sht40_sample_both dat (bus_of_count hi lo)).dat.temperature.fits ∧
    (sht40_sample_both dat (bus_of_count hi lo)).dat.humidity.fits := by
  have hs : (hi <<< 8) + lo = 256 * hi + lo := by rw [Nat.shiftLeft_eq]; omega
  have hc : 256 * hi + lo < 65536 := by omega
  have hv := bus_of_count_valid hi lo
  have kt := sample_fetch_ok_temperature dat .SENSOR_CHAN_ALL (bus_of_count hi lo) rfl rfl rfl
    hv.1 hv.2
  have kh := sample_fetch_ok_humidity dat .SENSOR_CHAN_ALL (bus_of_count hi lo) rfl rfl rfl
    hv.1 hv.2
  have e1 : (bus_of_count hi lo).read_buf.b0 = hi := rfl
  have e2 : (bus_of_count hi lo).read_buf.b1 = lo := rfl
  have e3 : (bus_of_count hi lo).read_buf.b3 = hi := rfl
  have e4 : (bus_of_count hi lo).read_buf.b4 = lo := rfl
  rw [e1, e2, count_eq _ _ hhi hlo] at kt
  rw [e3, e4, count_eq _ _ hhi hlo] at kh
  have kt2 : (sht40_sample_both dat (bus_of_count hi lo)).dat.temperature =
      sensor_value_from_double (((256 * hi + lo : Nat) : ℚ) * 175 / 65536 - 45) := kt
  have kh2 : (sht40_sample_both dat (bus_of_count hi lo)).dat.humidity =
      sensor_value_from_double (((256 * hi + lo : Nat) : ℚ) * 100 / 65536) := kh
  have bt : |((256 * hi + lo : Nat) : ℚ) * 175 / 65536 - 45| ≤ 1000 := by
    have h0 : (0 : ℚ) ≤ ((256 * hi + lo : Nat) : ℚ) := Nat.cast_nonneg _
    have h1 : ((256 * hi + lo : Nat) : ℚ) < 65536 := by exact_mod_cast hc
    rw [abs_le]
    constructor <;> linarith
  have bh : |((256 * hi + lo : Nat) : ℚ) * 100 / 65536| ≤ 1000 := by
    have h0 : (0 : ℚ) ≤ ((256 * hi + lo : Nat) : ℚ) := Nat.cast_nonneg _
    have h1 : ((256 * hi + lo : Nat) : ℚ) < 65536 := by exact_mod_cast hc
    rw [abs_le]
    constructor <;> linarith
  have xt := temperature_steps_exact (256 * hi + lo) hc
  have xh := humidity_steps_exact (256 * hi + lo) hc
  refine ⟨by omega, by omega, hs, by omega, by omega, int32_wrap_eq _ (by omega) (by omega),
    int32_wrap_eq _ (by omega) (by omega), xt.1, xt.2, xh, ?_, kt2, kh2, ?_, ?_⟩
  · rw [sample_both_ok dat (bus_of_count hi lo) rfl rfl hv.1 hv.2]
  · rw [kt2]; exact sensor_value_from_double_fits _ bt
  · rw [kh2]; exact sensor_value_from_double_fits _ bh

/-- Witness for C19: the bytes `0xFF`, `0xFF` of the largest count on the initial data. -/
theorem conversion_arithmetic_exact_witness :
    0xFF < 256 ∧ (0xFF <<< 8) + 0xFF ≤ 65535 ∧ (256 * 0xFF + 0xFF) * 175 ≤ 11468625 ∧
    (sht40_sample_both dat_init (bus_of_count 0xFF 0xFF)).ret = 0 :=
  ⟨by decide,
    (conversion_arithmetic_exact 0xFF 0xFF (by decide) (by decide) dat_init).1,
    (conversion_arithmetic_exact 0xFF 0xFF (by decide) (by decide) dat_init).2.2.2.1,
    (conversion_arithmetic_exact 0xFF 0xFF (by decide) (by decide)
      dat_init).2.2.2.2.2.2.2.2.2.2.1⟩

/-! ## The end-to-end scenario -/

/-- C13, refuted as stated: for the data bytes `[0x65, 0x54]` the checksum is `0x19`, not
`0x8C`, and for `[0x81, 0x17]` it is `0x82`, not `0xC7`; so on the response
`[0x65, 0x54, 0x8C, 0x81, 0x17, 0xC7]` no check passes, `sht40_sample_both` returns `-EPROTO`,
the stored temperature stays at its initial value 0, and `sht40_channel_get` in processed mode
returns eight zero bytes, which is not the conversion `(24, 267272)` of the count `0x6554`. -/
theorem scenario_bytes_fail_checksum :
    sensirion_calc_crc bus_scenario.read_buf.temp = 0x19 ∧
    bus_scenario.read_buf.temp.b2 = 0x8C ∧
    sensirion_calc_crc bus_scenario.read_buf.hum = 0x82 ∧
    bus_scenario.read_buf.hum.b2 = 0xC7 ∧
    ¬ triple_valid bus_scenario.read_buf.temp ∧
    ¬ triple_valid bus_scenario.read_buf.hum ∧
    (sht40_sample_both dat_init bus_scenario).ret = -EPROTO ∧
    dat_scenario.use_raw_temp = false ∧
    dat_scenario.temperature = { val1 := 0, val2 := 0 } ∧
    sensor_value_from_double ((25940 : ℚ) * 175 / 65536 - 45) = { val1 := 24, val2 := 267272 } ∧
    (sht40_channel_get dat_scenario .SENSOR_CHAN_AMBIENT_TEMP val_zero).val
      = [0, 0, 0, 0, 0, 0, 0, 0] ∧
    (sht40_channel_get dat_scenario .SENSOR_CHAN_AMBIENT_TEMP val_zero).val
      ≠ sensor_value_bytes { val1 := 24, val2 := 267272 } :=
  ⟨by decide, by decide, by decide, by decide, by decide, by decide, by decide, by decide,
    by decide, by decide!, by decide, by decide⟩

/-- C13, amended: starting from the initialised data, when the bus read returns
`[0x65, 0x54, 0x19, 0x81, 0x17, 0x82]` (the data bytes of the scenario with their matching check
bytes), both checks pass and the fetch returns 0; `sht40_channel_get` on the temperature channel
in processed mode returns 0 and the bytes of the conversion of the count `0x6554`, that is of
`25940 * 175 / 65536 - 45`, which is `(24, 267272)`; after the temperature channel is switched
to raw mode it returns 0 and the bytes `[0x65, 0x54, 0x19]` followed by zero bytes. -/
theorem scenario_with_matching_check_bytes :
    (sht40_init sht40_data_0 1).ret = 0 ∧
    bus_good.read_buf = { b0 := 0x65, b1 := 0x54, b2 := 0x19, b3 := 0x81, b4 := 0x17, b5 := 0x82 } ∧
    triple_valid bus_good.read_buf.temp ∧ triple_valid bus_good.read_buf.hum ∧
    (sht40_sample_both dat_init bus_good).ret = 0 ∧
    (sht40_sample_fetch dat_init .SENSOR_CHAN_ALL bus_good).ret = 0 ∧
    dat_fetched.use_raw_temp = false ∧
    (sht40_channel_get dat_fetched .SENSOR_CHAN_AMBIENT_TEMP val_zero).ret = 0 ∧
    (sht40_channel_get dat_fetched .SENSOR_CHAN_AMBIENT_TEMP val_zero).val
      = sensor_value_bytes (sensor_value_from_double ((25940 : ℚ) * 175 / 65536 - 45)) ∧
    sensor_value_from_double ((25940 : ℚ) * 175 / 65536 - 45) = { val1 := 24, val2 := 267272 } ∧
    (sht40_attr_set dat_fetched .SENSOR_CHAN_AMBIENT_TEMP .SHT40_ATTR_USE_RAW
      { val1 := 1, val2 := 0 }).ret = 0 ∧
    (sht40_channel_get
      (sht40_attr_set dat_fetched .SENSOR_CHAN_AMBIENT_TEMP .SHT40_ATTR_USE_RAW
        { val1 := 1, val2 := 0 }).dat .SENSOR_CHAN_AMBIENT_TEMP val_zero).ret = 0 ∧
    (sht40_channel_get
      (sht40_attr_set dat_fetched .SENSOR_CHAN_AMBIENT_TEMP .SHT40_ATTR_USE_RAW
        { val1 := 1, val2 := 0 }).dat .SENSOR_CHAN_AMBIENT_TEMP val_zero).val
      = [0x65, 0x54, 0x19, 0, 0, 0, 0, 0] :=
  ⟨by decide, by decide, by decide, by decide, by decide, by decide, by decide, by decide,
    by decide!, by decide!, by decide, by decide, by decide⟩

/-! ## Range of the humidity -/

theorem sensor_value_from_double_nonneg (x : ℚ) (hx : 0 ≤ x) :
    0 ≤ (sensor_value_from_double x).val1 ∧
    0 ≤ (sensor_value_from_double x).val2 ∧
    (sensor_value_from_double x).val2 < 1000000 ∧
    0 ≤ (sensor_value_from_double x).toRat ∧
    (sensor_value_from_double x).toRat ≤ x := by
  have hfl := Int.floor_le x
  have hlt := Int.lt_floor_add_one x
  have hf0 : 0 ≤ (x - (⌊x⌋ : ℚ)) * 1000000 := by linarith
  have hv1 : (sensor_value_from_double x).val1 = ⌊x⌋ := by
    simp [sensor_value_from_double, int32_of_double, hx]
  have hv2 : (sensor_value_from_double x).val2 = ⌊(x - (⌊x⌋ : ℚ)) * 1000000⌋ := by
    simp only [sensor_value_from_double, int32_of_double, if_pos hx, if_pos hf0]
  have h1 : 0 ≤ ⌊x⌋ := Int.floor_nonneg.mpr hx
  have h2 : 0 ≤ ⌊(x - (⌊x⌋ : ℚ)) * 1000000⌋ := Int.floor_nonneg.mpr hf0
  have h3 : ⌊(x - (⌊x⌋ : ℚ)) * 1000000⌋ < 1000000 := by
    rw [Int.floor_lt]
    push_cast
    linarith
  have h4 := Int.floor_le ((x - (⌊x⌋ : ℚ)) * 1000000)
  have h1q : (0 : ℚ) ≤ (⌊x⌋ : ℚ) := by exact_mod_cast h1
  have h2q : (0 : ℚ) ≤ (⌊(x - (⌊x⌋ : ℚ)) * 1000000⌋ : ℚ) := by exact_mod_cast h2
  refine ⟨by rw [hv1]; exact h1, by rw [hv2]; exact h2, by rw [hv2]; exact h3, ?_, ?_⟩
  · simp only [sensor_value.toRat, hv1, hv2]
    have : (0 : ℚ) ≤ (⌊(x - (⌊x⌋ : ℚ)) * 1000000⌋ : ℚ) / 1000000 := by positivity
    linarith
  · simp only [sensor_value.toRat, hv1, hv2]
    linarith

theorem sample_fetch_humidity_range (dat : sht40_data) (chan : sensor_channel) (bus : i2c_bus)
    (hchan : chan.supported = true) (hw : bus.write_ret = 0) (hr : bus.read_ret = 0)
    (ht : triple_valid bus.read_buf.temp) (hh : triple_valid bus.read_buf.hum) :
    0 ≤ (sht40_sample_fetch dat chan bus).dat.humidity.val1 ∧
    (sht40_sample_fetch dat chan bus).dat.humidity.val1 ≤ 99 ∧
    0 ≤ (sht40_sample_fetch dat chan bus).dat.humidity.val2 ∧
    (sht40_sample_fetch dat chan bus).dat.humidity.val2 < 1000000 ∧
    0 ≤ (sht40_sample_fetch dat chan bus).dat.humidity.toRat ∧
    (sht40_sample_fetch dat chan bus).dat.humidity.toRat < 100 := by
  rw [sample_fetch_ok_humidity dat chan bus hchan hw hr ht hh]
  have hm : ((bus.read_buf.b3 <<< 8) + bus.read_buf.b4) % 2 ^ 16 < 65536 :=
    Nat.mod_lt _ (by norm_num)
  generalize ((bus.read_buf.b3 <<< 8) + bus.read_buf.b4) % 2 ^ 16 = h at hm
  have h0 : (0 : ℚ) ≤ (h : ℚ) := Nat.cast_nonneg _
  have h1 : (h : ℚ) < 65536 := by exact_mod_cast hm
  have hx0 : (0 : ℚ) ≤ (h : ℚ) * 100 / 65536 := by positivity
  have hx1 : (h : ℚ) * 100 / 65536 < 100 := by linarith
  obtain ⟨a1, a2, a3, a4, a5⟩ := sensor_value_from_double_nonneg _ hx0
  refine ⟨a1, ?_, a2, a3, a4, lt_of_le_of_lt a5 hx1⟩
  have hq : ((sensor_value_from_double ((h : ℚ) * 100 / 65536)).val1 : ℚ) < 100 := by
    have a2q : (0 : ℚ) ≤ ((sensor_value_from_double ((h : ℚ) * 100 / 65536)).val2 : ℚ) := by
      exact_mod_cast a2
    have : (0 : ℚ) ≤ ((sensor_value_from_double ((h : ℚ) * 100 / 65536)).val2 : ℚ) / 1000000 := by
      positivity
    simp only [sensor_value.toRat] at a5
    linarith
  have hz : (sensor_value_from_double ((h : ℚ) * 100 / 65536)).val1 < 100 := by
    exact_mod_cast hq
  omega

theorem sensor_value_from_double_le_grid (x : ℚ) (hx : 0 ≤ x) (n : Int)
    (hn : x * 1000000 < (n : ℚ) + 1) :
    (sensor_value_from_double x).toRat ≤ (n : ℚ) / 1000000 := by
  obtain ⟨_, _, _, _, a5⟩ := sensor_value_from_double_nonneg x hx
  generalize sensor_value_from_double x = v at a5
  simp only [sensor_value.toRat] at a5 ⊢
  have hq : ((v.val1 * 1000000 + v.val2 : Int) : ℚ) < ((n + 1 : Int) : ℚ) := by
    push_cast
    linarith
  have hz : v.val1 * 1000000 + v.val2 < n + 1 := by exact_mod_cast hq
  have hz2 : v.val1 * 1000000 + v.val2 ≤ n := by omega
  have hq2 : ((v.val1 * 1000000 + v.val2 : Int) : ℚ) ≤ (n : ℚ) := by exact_mod_cast hz2
  push_cast at hq2
  linarith

theorem sample_fetch_humidity_max (dat : sht40_data) (chan : sensor_channel) (bus : i2c_bus)
    (hchan : chan.supported = true) (hw : bus.write_ret = 0) (hr : bus.read_ret = 0)
    (ht : triple_valid bus.read_buf.temp) (hh : triple_valid bus.read_buf.hum) :
    (sht40_sample_fetch dat chan bus).dat.humidity.toRat ≤ 99998474 / 1000000 := by
  rw [sample_fetch_ok_humidity dat chan bus hchan hw hr ht hh]
  have hm : ((bus.read_buf.b3 <<< 8) + bus.read_buf.b4) % 2 ^ 16 < 65536 :=
    Nat.mod_lt _ (by norm_num)
  generalize ((bus.read_buf.b3 <<< 8) + bus.read_buf.b4) % 2 ^ 16 = h at hm
  have h0 : (0 : ℚ) ≤ (h : ℚ) := Nat.cast_nonneg _
  have h1 : (h : ℚ) ≤ 65535 := by
    have : h ≤ 65535 := by omega
    exact_mod_cast this
  have hx0 : (0 : ℚ) ≤ (h : ℚ) * 100 / 65536 := by positivity
  have hg := sensor_value_from_double_le_grid ((h : ℚ) * 100 / 65536) hx0 99998474
    (by push_cast; linarith)
  have e : ((99998474 : Int) : ℚ) = 99998474 := by norm_num
  rw [e] at hg
  exact hg

/-- C18, refuted as stated: there is no device data, supported channel and response of a
successful fetch (both transfers completed, both check bytes matching) for which the stored
humidity is below 0 or above 100. -/
theorem humidity_never_leaves_range :
    ¬ ∃ (dat : sht40_data) (chan : sensor_channel) (bus : i2c_bus),
      chan.supported = true ∧ bus.write_ret = 0 ∧ bus.read_ret = 0 ∧
      triple_valid bus.read_buf.temp ∧ triple_valid bus.read_buf.hum ∧
      ((sht40_sample_fetch dat chan bus).dat.humidity.toRat < 0 ∨
        100 < (sht40_sample_fetch dat chan bus).dat.humidity.toRat) := by
  rintro ⟨dat, chan, bus, hchan, hw, hr, ht, hh, hlt | hgt⟩
  · have h := (sample_fetch_humidity_range dat chan bus hchan hw hr ht hh).2.2.2.2.1
    exact absurd hlt (not_lt.mpr h)
  · have h := (sample_fetch_humidity_range dat chan bus hchan hw hr ht hh).2.2.2.2.2
    exact absurd hgt (not_lt.mpr (le_of_lt h))

/-- C18, amended: the stored humidity is the unclamped conversion of `h * 100 / 65536`, and for
every successful fetch it lies between 0 and 100 all the same: its integer part is between 0 and
99, its millionths are between 0 and 999999, and the value is at least 0 and below 100.  The
count 0 stores 0 and the count 65535 stores `(99, 998474)`, that is `99.998474`, and this is the
largest value: the humidity stored by any successful fetch is at most `99.998474`. -/
theorem sample_fetch_humidity_within_range (dat : sht40_data) (chan : sensor_channel)
    (bus : i2c_bus) (hchan : chan.supported = true) (hw : bus.write_ret = 0)
    (hr : bus.read_ret = 0) (ht : triple_valid bus.read_buf.temp)
    (hh : triple_valid bus.read_buf.hum) :
    (sht40_sample_fetch dat chan bus).dat.humidity =
      sensor_value_from_double
        (((((bus.read_buf.b3 <<< 8) + bus.read_buf.b4) % 2 ^ 16 : Nat) : ℚ) * 100 / 65536) ∧
    0 ≤ (sht40_sample_fetch dat chan bus).dat.humidity.val1 ∧
    (sht40_sample_fetch dat chan bus).dat.humidity.val1 ≤ 99 ∧
    0 ≤ (sht40_sample_fetch dat chan bus).dat.humidity.val2 ∧
    (sht40_sample_fetch dat chan bus).dat.humidity.val2 < 1000000 ∧
    0 ≤ (sht40_sample_fetch dat chan bus).dat.humidity.toRat ∧
    (sht40_sample_fetch dat chan bus).dat.humidity.toRat < 100 ∧
    (sht40_sample_fetch dat chan bus_min).dat.humidity = { val1 := 0, val2 := 0 } ∧
    (sht40_sample_fetch dat chan bus_max).dat.humidity = { val1 := 99, val2 := 998474 } ∧
    (sht40_sample_fetch dat chan bus).dat.humidity.toRat ≤ 99998474 / 1000000 ∧
    (sht40_sample_fetch dat chan bus_max).dat.humidity.toRat = 99998474 / 1000000 ∧
    (sht40_sample_fetch dat chan bus).dat.humidity.toRat
      ≤ (sht40_sample_fetch dat chan bus_max).dat.humidity.toRat := by
  obtain ⟨r1, r2, r3, r4, r5, r6⟩ := sample_fetch_humidity_range dat chan bus hchan hw hr ht hh
  have hmax := sample_fetch_humidity_max dat chan bus hchan hw hr ht hh
  have emax : (sht40_sample_fetch dat chan bus_max).dat.humidity
      = { val1 := 99, val2 := 998474 } := by
    rw [sample_fetch_ok_humidity dat chan bus_max hchan rfl rfl (by decide) (by decide)]
    decide!
  have vmax : (sht40_sample_fetch dat chan bus_max).dat.humidity.toRat
      = 99998474 / 1000000 := by
    rw [emax]
    decide!
  refine ⟨sample_fetch_ok_humidity dat chan bus hchan hw hr ht hh, r1, r2, r3, r4, r5, r6,
    ?_, emax, hmax, vmax, ?_⟩
  · rw [sample_fetch_ok_humidity dat chan bus_min hchan rfl rfl (by decide) (by decide)]
    decide!
  · rw [vmax]
    exact hmax

/-- Witness for the amended C18: the largest count on the initial data. -/
theorem sample_fetch_humidity_within_range_witness :
    sensor_channel.SENSOR_CHAN_ALL.supported = true ∧
    bus_max.write_ret = 0 ∧ bus_max.read_ret = 0 ∧
    triple_valid bus_max.read_buf.temp ∧ triple_valid bus_max.read_buf.hum ∧
    (sht40_sample_fetch dat_init .SENSOR_CHAN_ALL bus_max).dat.humidity.toRat < 100 ∧
    (sht40_sample_fetch dat_init .SENSOR_CHAN_ALL bus_max).dat.humidity.toRat
      ≤ 99998474 / 1000000 :=
  ⟨by decide, by decide, by decide, by decide, by decide,
    (sample_fetch_humidity_within_range dat_init .SENSOR_CHAN_ALL bus_max (by decide)
      (by decide) (by decide) (by decide) (by decide)).2.2.2.2.2.2.1,
    (sample_fetch_humidity_within_range dat_init .SENSOR_CHAN_ALL bus_max (by decide)
      (by decide) (by decide) (by decide) (by decide)).2.2.2.2.2.2.2.2.2.1⟩

end SHT40
